import Mathlib

/-!
Shallow embedding of the Eco-Lens backend core engines
(`src/backend/services/*.py`) and proofs about the properties its
specification claims.

Python floats are idealised as elements of a linear ordered field
(`ℝ` at the top level; the exception-free rational fragments are kept
polymorphic so that concrete runs can be evaluated exactly over `ℚ`).
Python's `round` builtin (banker's rounding, round-half-to-even) is
modelled by `pyround` below; `round(x, n)` is `pyround (10^n * x) / 10^n`.
-/

namespace EcoLens

/-! ## Python rounding primitives -/

/-- Python's `round(x)`: round half to even (banker's rounding). -/
def pyround {α : Type} [LinearOrderedField α] [FloorRing α] (x : α) : ℤ :=
  if Int.fract x < 1 / 2 then ⌊x⌋
  else if 1 / 2 < Int.fract x then ⌊x⌋ + 1
  else if Even ⌊x⌋ then ⌊x⌋ else ⌊x⌋ + 1

/-- Python's `round(x, 1)`. -/
def round1 {α : Type} [LinearOrderedField α] [FloorRing α] (x : α) : α :=
  (pyround (10 * x) : α) / 10

/-- Python's `round(x, 2)`. -/
def round2 {α : Type} [LinearOrderedField α] [FloorRing α] (x : α) : α :=
  (pyround (100 * x) : α) / 100

/-- Python's `round(x, 6)`. -/
def round6 {α : Type} [LinearOrderedField α] [FloorRing α] (x : α) : α :=
  (pyround (1000000 * x) : α) / 1000000

/-! ## Data model (`models.py`, fields used by the embedded services) -/

/-- `models.PollutionData` (fields used by the embedded engines). -/
structure PollutionData where
  pm25 : ℝ
  pm10 : ℝ
  no2 : ℝ
  co : ℝ


/-- `models.NoiseData` (field used by the health scorer). -/
structure NoiseData where
  db_level : ℝ


/-- `models.HealthData`. -/
structure HealthData where
  score : ℤ
  risk_level : String
  equivalent_cigarettes : ℝ
  vulnerable_advisory : String


/-- `models.SensorData` (fields used by the mesh and routing services:
`s.lat`, `s.lng` and `s.pollution.pm25`). -/
structure SensorData where
  lat : ℝ
  lng : ℝ
  pollution : PollutionData

/-- Grid bounds dictionary `{north, south, east, west}`. -/
structure Bounds where
  north : ℝ
  south : ℝ
  east : ℝ
  west : ℝ

/-- `models.GridData`. -/
structure GridData where
  bounds : Bounds
  resolution : ℤ
  values : List (List ℝ)

/-! ## PhysicsEngine (`physics_engine.py`) -/

namespace PhysicsEngine

/-- `PhysicsEngine.pm25_to_aqi`: EPA piecewise-linear PM2.5 → AQI
conversion, loop over `_AQI_BREAKPOINTS` unrolled. -/
noncomputable def pm25_to_aqi (pm25 : ℝ) : ℤ :=
  let p := max 0.0 pm25
  if p ≤ 12.0 then pyround (((50 - 0) / (12.0 - 0.0)) * (p - 0.0) + 0)
  else if p ≤ 35.4 then pyround (((100 - 51) / (35.4 - 12.1)) * (p - 12.1) + 51)
  else if p ≤ 55.4 then pyround (((150 - 101) / (55.4 - 35.5)) * (p - 35.5) + 101)
  else if p ≤ 150.4 then pyround (((200 - 151) / (150.4 - 55.5)) * (p - 55.5) + 151)
  else if p ≤ 250.4 then pyround (((300 - 201) / (250.4 - 150.5)) * (p - 150.5) + 201)
  else if p ≤ 500.4 then pyround (((500 - 301) / (500.4 - 250.5)) * (p - 250.5) + 301)
  else 500

/-- One row of `_STABILITY_PARAMS`. -/
structure SParams where
  sy_c : ℝ
  sy_e : ℝ
  sz_c : ℝ
  sz_e : ℝ

/-- `_STABILITY_PARAMS.get(stability, _STABILITY_PARAMS["D"])`. -/
def stability_params (stability : String) : SParams :=
  if stability = "A" then ⟨0.22, 0.94, 0.20, 0.94⟩
  else if stability = "B" then ⟨0.16, 0.92, 0.12, 0.92⟩
  else if stability = "C" then ⟨0.11, 0.91, 0.08, 0.85⟩
  else if stability = "D" then ⟨0.08, 0.89, 0.06, 0.82⟩
  else if stability = "E" then ⟨0.06, 0.86, 0.03, 0.78⟩
  else if stability = "F" then ⟨0.04, 0.83, 0.016, 0.72⟩
  else ⟨0.08, 0.89, 0.06, 0.82⟩

/-- Box-model fallback value used by `_gaussian_plume` under calm or
non-downwind conditions (`mixing_height = 100`, `box_area = 200*200`). -/
noncomputable def box_model (Q : ℝ) : ℝ :=
  (Q * 1e6) / ((200.0 * 200.0) * 100.0) * 0.5

/-- `PhysicsEngine._gaussian_plume`. Dispersion exponents `x_km ** e` are
real powers (`Real.rpow`); on the plume branch `x_km > 0`. -/
noncomputable def _gaussian_plume (Q u x y z H : ℝ) (stability : String) : ℝ :=
  if x ≤ 0 ∨ u < 0.3 then
    box_model Q
  else
    let params := stability_params stability
    let x_km := x / 1000.0
    let sigma_y := max (params.sy_c * (x_km ^ params.sy_e) * 1000.0) 1.0
    let sigma_z := max (params.sz_c * (x_km ^ params.sz_e) * 1000.0) 1.0
    let u' := max u 0.5
    let coeff := Q / (2.0 * Real.pi * u' * sigma_y * sigma_z)
    let lateral := Real.exp (-0.5 * (y / sigma_y) ^ (2 : ℕ))
    let vertical :=
      Real.exp (-0.5 * ((z - H) / sigma_z) ^ (2 : ℕ))
      + Real.exp (-0.5 * ((z + H) / sigma_z) ^ (2 : ℕ))
    coeff * lateral * vertical * 1e6

end PhysicsEngine

/-! ## HealthService (`health_service.py`) -/

namespace HealthService

/-- `HealthService._compute_health_score`: start at 100, subtract capped
penalties for PM2.5, PM10, NO2 and noise excess over WHO guidelines,
then clamp `round(score)` to `[0, 100]`. -/
noncomputable def _compute_health_score (pm25 pm10 no2 noise_db : ℝ) : ℤ :=
  let s0 : ℝ := 100.0
  let s1 := if 5.0 < pm25 then s0 - min 40.0 (((pm25 - 5.0) / 5.0) * 10.0) else s0
  let s2 := if 15.0 < pm10 then s1 - min 15.0 (((pm10 - 15.0) / 15.0) * 5.0) else s1
  let s3 := if 10.0 < no2 then s2 - min 15.0 (((no2 - 10.0) / 10.0) * 4.0) else s2
  let s4 := if 55.0 < noise_db then s3 - min 15.0 ((noise_db - 55.0) * 0.5) else s3
  max 0 (min 100 (pyround s4))

/-- `HealthService._determine_risk_level`. -/
def _determine_risk_level (score : ℤ) : String :=
  if 80 ≤ score then "Low"
  else if 60 ≤ score then "Moderate"
  else if 40 ≤ score then "High"
  else if 20 ≤ score then "Very High"
  else "Severe"

/-- `HealthService._compute_cigarette_equivalent` (default `hours = 24`). -/
noncomputable def _compute_cigarette_equivalent (pm25 : ℝ) (hours : ℝ) : ℝ :=
  if pm25 ≤ 0 ∨ hours ≤ 0 then 0.0
  else round2 ((pm25 / 22.0) * (hours / 24.0))

/-- `HealthService._generate_advisory`. -/
noncomputable def _generate_advisory (score : ℤ) (pm25 noise_db : ℝ) : String :=
  if 80 ≤ score then "Safe for all groups"
  else if 60 ≤ score then
    let advisory := "Sensitive individuals (children, elderly, respiratory conditions) should limit prolonged outdoor exertion"
    if 70 < noise_db then advisory ++ ". Hearing protection recommended for extended exposure"
    else advisory
  else if 40 ≤ score then
    let advisory := "Everyone should reduce prolonged outdoor exertion. Sensitive groups should avoid outdoor activity"
    if 55 < pm25 then advisory ++ ". Consider wearing N95 masks outdoors"
    else advisory
  else if 20 ≤ score then
    "Health alert: everyone may experience health effects. Sensitive groups at serious risk. Stay indoors if possible"
  else
    "Emergency conditions: all outdoor activity should be avoided. Keep windows closed. Use air purifiers indoors"

/-- `HealthService.calculate_health_impact`. -/
noncomputable def calculate_health_impact (pollution : PollutionData) (noise : NoiseData) :
    HealthData :=
  let score := _compute_health_score pollution.pm25 pollution.pm10 pollution.no2 noise.db_level
  let risk_level := _determine_risk_level score
  let cigarettes := _compute_cigarette_equivalent pollution.pm25 24.0
  let advisory := _generate_advisory score pollution.pm25 noise.db_level
  { score := score
    risk_level := risk_level
    equivalent_cigarettes := cigarettes
    vulnerable_advisory := advisory }

end HealthService

/-! ## Great-circle distance (`_haversine`, identical in
`mesh_service.py` and `routing_service.py`) -/

/-- `math.radians`. -/
noncomputable def radians (d : ℝ) : ℝ := d * Real.pi / 180

/-- `math.atan2(y, x)` (IEEE / C `atan2` conventions, as Python's). -/
noncomputable def atan2 (y x : ℝ) : ℝ :=
  if 0 < x then Real.arctan (y / x)
  else if x < 0 then
    (if 0 ≤ y then Real.arctan (y / x) + Real.pi else Real.arctan (y / x) - Real.pi)
  else
    (if 0 < y then Real.pi / 2 else if y < 0 then -(Real.pi / 2) else 0)

/-- `_haversine`: great-circle distance in km (Earth radius 6371 km). -/
noncomputable def _haversine (lat1 lng1 lat2 lng2 : ℝ) : ℝ :=
  let dlat := radians (lat2 - lat1)
  let dlng := radians (lng2 - lng1)
  let a := Real.sin (dlat / 2) ^ (2 : ℕ)
    + Real.cos (radians lat1) * Real.cos (radians lat2) * Real.sin (dlng / 2) ^ (2 : ℕ)
  let c := 2 * atan2 (Real.sqrt a) (Real.sqrt (1 - a))
  6371.0 * c

/-! ## MeshService (`mesh_service.py`) -/

namespace MeshService

/-- Mutable service state: `self._bounds` and `self._resolution`
(defaults `_DEFAULT_BOUNDS`, `_DEFAULT_RESOLUTION = 30`). -/
structure State where
  bounds : Bounds := ⟨40.82, 40.70, -73.78, -74.02⟩
  resolution : ℤ := 30

/-- `MeshService._haversine_meters`. -/
noncomputable def _haversine_meters (lat1 lng1 lat2 lng2 : ℝ) : ℝ :=
  _haversine lat1 lng1 lat2 lng2 * 1000.0

/-- Result of `_calculate_semivariogram`: `{nugget, sill, range_param}`. -/
structure VParams where
  nugget : ℝ
  sill : ℝ
  range_param : ℝ

/-- `MeshService._calculate_semivariogram` (with `n_lags = 10`). -/
noncomputable def _calculate_semivariogram
    (locations : List (ℝ × ℝ)) (values : List ℝ) : VParams :=
  let n := locations.length
  let n_lags : ℕ := 10
  if n < 2 then ⟨0.0, 1.0, 1000.0⟩
  else
    let pairs : List (ℝ × ℝ) :=
      (List.range n).flatMap fun i =>
        (List.range' (i + 1) (n - (i + 1))).map fun j =>
          (_haversine_meters (locations.getD i (0, 0)).1 (locations.getD i (0, 0)).2
            (locations.getD j (0, 0)).1 (locations.getD j (0, 0)).2,
           (values.getD i 0 - values.getD j 0) ^ (2 : ℕ))
    let distances := pairs.map Prod.fst
    if distances = [] then ⟨0.0, 1.0, 1000.0⟩
    else
      let max_dist := (distances.max?).getD 0
      let lag_width0 := if 0 < max_dist then max_dist / n_lags else 100.0
      let lag_width := max lag_width0 10.0
      let binned : List (ℝ × ℝ) :=
        (List.range n_lags).filterMap fun lag_idx =>
          let h_low := (lag_idx : ℝ) * lag_width
          let h_high := ((lag_idx : ℝ) + 1) * lag_width
          let h_center := (h_low + h_high) / 2.0
          let bin := (pairs.filter fun p => decide (h_low ≤ p.1 ∧ p.1 < h_high)).map Prod.snd
          if bin = [] then none
          else some (h_center, bin.sum / (2.0 * bin.length))
      let mean := values.sum / n
      let data_variance := ((values.map fun v => (v - mean) ^ (2 : ℕ)).sum) / n
      if binned = [] then
        ⟨0.0, max data_variance 1.0, if 0 < max_dist then max_dist * 0.5 else 1000.0⟩
      else
        let gamma_values := binned.map Prod.snd
        let sill := max (max ((gamma_values.max?).getD 0) data_variance) 1.0
        let nugget := max 0.0 ((gamma_values.getD 0 0) * 0.5)
        let range_param0 :=
          match binned.find? (fun p => decide (0.95 * sill ≤ p.2)) with
          | some p => p.1
          | none => max_dist * 0.5
        ⟨nugget, sill, max range_param0 100.0⟩

/-- `MeshService._spherical_variogram`. -/
noncomputable def _spherical_variogram (h nugget sill range_param : ℝ) : ℝ :=
  if h ≤ 0 then 0.0
  else
    let a := max range_param 1.0
    let partial_sill := sill - nugget
    if h ≤ a then nugget + partial_sill * (1.5 * (h / a) - 0.5 * (h / a) ^ (3 : ℕ))
    else sill

/-- Augmented-matrix entry access `m[i][j]` (absent entries read as 0;
all accesses in the solver are in range). -/
noncomputable def entry (m : List (List ℝ)) (i j : ℕ) : ℝ := (m.getD i []).getD j 0

/-- Row swap `m[col], m[max_row] = m[max_row], m[col]`. -/
noncomputable def swapRows (m : List (List ℝ)) (i j : ℕ) : List (List ℝ) :=
  (m.set i (m.getD j [])).set j (m.getD i [])

/-- One column step of `_gauss_jordan`: partial pivoting, singularity
check, row normalisation and elimination. -/
noncomputable def gjStep (n : ℕ) (m : List (List ℝ)) (col : ℕ) : Option (List (List ℝ)) :=
  let best := (List.range' (col + 1) (n - (col + 1))).foldl
    (fun (best : ℕ × ℝ) row =>
      if best.2 < |entry m row col| then (row, |entry m row col|) else best)
    (col, |entry m col col|)
  if best.2 < 1e-12 then none
  else
    let m1 := swapRows m col best.1
    let pivot := entry m1 col col
    let m2 := m1.set col ((m1.getD col []).map (· / pivot))
    some ((List.range n).foldl
      (fun mm row =>
        if row = col then mm
        else
          let factor := entry mm row col
          mm.set row (List.zipWith (fun a b => a - factor * b) (mm.getD row []) (mm.getD col [])))
      m2)

/-- `MeshService._gauss_jordan`: Gauss-Jordan elimination with partial
pivoting over the augmented matrix; `none` when singular. -/
noncomputable def _gauss_jordan (matrix : List (List ℝ)) (size : ℕ) : Option (List ℝ) :=
  ((List.range size).foldlM (gjStep size) matrix).map fun m =>
    (List.range size).map fun i => entry m i size

/-- `MeshService._idw_single` (with `power = _IDW_POWER = 2.5`). -/
noncomputable def _idw_single
    (known_points : List (ℝ × ℝ)) (known_values : List ℝ) (target_point : ℝ × ℝ) : ℝ :=
  if known_points.isEmpty then 10.0
  else
    let acc := (known_points.zip known_values).foldl
      (fun (acc : ℝ × ℝ) pv =>
        let dist := max (_haversine target_point.1 target_point.2 pv.1.1 pv.1.2) 0.05
        let w := 1.0 / dist ^ (2.5 : ℝ)
        (acc.1 + w * pv.2, acc.2 + w))
      (0.0, 0.0)
    if acc.2 = 0 then 10.0 else acc.1 / acc.2

/-- `MeshService._ordinary_kriging`: build the `(N+1) × (N+2)` augmented
Kriging system, solve it, and fall back to IDW when singular. -/
noncomputable def _ordinary_kriging
    (known_points : List (ℝ × ℝ)) (known_values : List ℝ)
    (target_point : ℝ × ℝ) (vp : VParams) : ℝ :=
  let n := known_points.length
  let size := n + 1
  let pt := fun i => known_points.getD i (0, 0)
  let matrix : List (List ℝ) :=
    (List.range size).map fun i =>
      (List.range (size + 1)).map fun j =>
        if i < n ∧ j < n then
          (if i = j then 0.0
           else _spherical_variogram
             (_haversine_meters (pt i).1 (pt i).2 (pt j).1 (pt j).2)
             vp.nugget vp.sill vp.range_param)
        else if i < n ∧ j = n then 1.0
        else if i = n ∧ j < n then 1.0
        else if i = n ∧ j = n then 0.0
        else if i < n then
          _spherical_variogram
            (_haversine_meters (pt i).1 (pt i).2 target_point.1 target_point.2)
            vp.nugget vp.sill vp.range_param
        else 1.0
  match _gauss_jordan matrix size with
  | none => _idw_single known_points known_values target_point
  | some solution =>
    max 0.0 ((List.range n).foldl
      (fun acc i => acc + solution.getD i 0 * known_values.getD i 0) 0.0)

/-- `MeshService._idw_interpolate` (with `power = _IDW_POWER = 2.5`). -/
noncomputable def _idw_interpolate
    (target_lat target_lng : ℝ) (sensors : List SensorData) : ℝ :=
  if sensors.isEmpty then 10.0
  else
    let acc := sensors.foldl
      (fun (acc : ℝ × ℝ) sensor =>
        let dist := max (_haversine target_lat target_lng sensor.lat sensor.lng) 0.05
        let w := 1.0 / dist ^ (2.5 : ℝ)
        (acc.1 + w * sensor.pollution.pm25, acc.2 + w))
      (0.0, 0.0)
    if acc.2 = 0 then 10.0 else acc.1 / acc.2

/-- `MeshService.generate_grid`. `bounds or self._bounds` /
`resolution or self._resolution` follow Python truthiness (for the
integer resolution, `0` falls back to the stored default). -/
noncomputable def generate_grid (svc : State) (sensors : List SensorData)
    (boundsArg : Option Bounds) (resolutionArg : Option ℤ) : GridData :=
  let grid_bounds := boundsArg.getD svc.bounds
  let grid_res : ℤ :=
    match resolutionArg with
    | none => svc.resolution
    | some r => if r = 0 then svc.resolution else r
  let north := grid_bounds.north
  let south := grid_bounds.south
  let east := grid_bounds.east
  let west := grid_bounds.west
  let lat_step := (north - south) / grid_res
  let lng_step := (east - west) / grid_res
  let locations := sensors.map fun s => (s.lat, s.lng)
  let values := sensors.map fun s => s.pollution.pm25
  let use_kriging := 4 ≤ sensors.length
  let vparams : Option VParams :=
    if use_kriging then some (_calculate_semivariogram locations values) else none
  let grid_values : List (List ℝ) :=
    (List.range grid_res.toNat).map fun (row : ℕ) =>
      let lat := north - ((row : ℝ) + 0.5) * lat_step
      (List.range grid_res.toNat).map fun (col : ℕ) =>
        let lng := west + ((col : ℝ) + 0.5) * lng_step
        let pm25 :=
          match vparams with
          | some vp => _ordinary_kriging locations values (lat, lng) vp
          | none => _idw_interpolate lat lng sensors
        round1 (max 0.0 pm25)
  { bounds := grid_bounds, resolution := grid_res, values := grid_values }

/-- `MeshService._pm25_to_aqi` (same EPA breakpoint table as
`PhysicsEngine.pm25_to_aqi`). -/
noncomputable def _pm25_to_aqi (pm25 : ℝ) : ℤ :=
  let p := max 0.0 pm25
  if p ≤ 12.0 then pyround (((50 - 0) / (12.0 - 0.0)) * (p - 0.0) + 0)
  else if p ≤ 35.4 then pyround (((100 - 51) / (35.4 - 12.1)) * (p - 12.1) + 51)
  else if p ≤ 55.4 then pyround (((150 - 101) / (55.4 - 35.5)) * (p - 35.5) + 101)
  else if p ≤ 150.4 then pyround (((200 - 151) / (150.4 - 55.5)) * (p - 55.5) + 151)
  else if p ≤ 250.4 then pyround (((300 - 201) / (250.4 - 150.5)) * (p - 150.5) + 201)
  else if p ≤ 500.4 then pyround (((500 - 301) / (500.4 - 250.5)) * (p - 250.5) + 301)
  else 500

/-- `MeshService.generate_aqi_grid`. -/
noncomputable def generate_aqi_grid (svc : State) (sensors : List SensorData)
    (boundsArg : Option Bounds) (resolutionArg : Option ℤ) : GridData :=
  let pm25_grid := generate_grid svc sensors boundsArg resolutionArg
  { bounds := pm25_grid.bounds
    resolution := pm25_grid.resolution
    values := pm25_grid.values.map fun row => row.map fun pm25 => ((_pm25_to_aqi pm25 : ℤ) : ℝ) }

/-- Modelled from the spec (§4.5): the direct inverse-distance-weighted
estimate the grid is compared against — weights `1 / max(d, ε)^power`
with `power = 2.5`, `ε = 0.05 km`, over the sensors' PM2.5 values, and
the fixed default background value (10 µg/m³) when no readings are
cached. -/
noncomputable def idw_direct (lat lng : ℝ) (sensors : List SensorData) : ℝ :=
  if sensors.isEmpty then 10.0
  else
    ((sensors.map fun s =>
        (1.0 / max (_haversine lat lng s.lat s.lng) 0.05 ^ (2.5 : ℝ)) * s.pollution.pm25).sum)
    / ((sensors.map fun s =>
        1.0 / max (_haversine lat lng s.lat s.lng) 0.05 ^ (2.5 : ℝ)).sum)

/-- Latitude of the centre of grid row `row` (`north - (row + 0.5) * lat_step`). -/
noncomputable def cell_lat (b : Bounds) (res : ℤ) (row : ℕ) : ℝ :=
  b.north - ((row : ℝ) + 0.5) * ((b.north - b.south) / res)

/-- Longitude of the centre of grid column `col` (`west + (col + 0.5) * lng_step`). -/
noncomputable def cell_lng (b : Bounds) (res : ℤ) (col : ℕ) : ℝ :=
  b.west + ((col : ℝ) + 0.5) * ((b.east - b.west) / res)

end MeshService

/-! ## AcousticService (`acoustic_service.py`) -/

namespace AcousticService

/-- `_db_add(*levels)`: incoherent energy summation of decibel levels
(non-positive levels are filtered out before summing energies). -/
noncomputable def _db_add (levels : List ℝ) : ℝ :=
  let total_energy :=
    ((levels.filter fun lev => decide (0 < lev)).map fun lev => (10 : ℝ) ^ (lev / 10)).sum
  if total_energy ≤ 0 then 0.0
  else 10 * Real.logb 10 total_energy

/-- `AcousticService._fleet_noise_level`: `L_N = L_single + 10*log10(N)`
for `N > 0`, else 0. -/
noncomputable def _fleet_noise_level (single_db : ℝ) (count : ℤ) : ℝ :=
  if count ≤ 0 then 0.0
  else single_db + 10 * Real.logb 10 (count : ℝ)

end AcousticService

/-! ## ForecastService (`forecast_service.py`)

The exception-free Holt-Winters core is polymorphic in the ordered
field so that concrete runs can be evaluated exactly over `ℚ`; the
service itself works over `ℝ` (it calls `math.sqrt` and `math.exp`). -/

namespace ForecastService

/-- `models.ForecastPoint` (timestamps idealised as real minute
offsets). -/
structure ForecastPoint where
  timestamp : ℝ
  predicted_pm25 : ℝ
  confidence_lower : ℝ
  confidence_upper : ℝ

/-- Per-service state: the smoothing parameters and the per-sensor maps
`self._history` (5-second readings, values only), `self._level`,
`self._trend` and `self._hourly_history` ((timestamp, pm25) pairs).
Absent keys are `none`. -/
structure State where
  alpha : ℝ := 0.3
  beta : ℝ := 0.1
  gamma : ℝ := 0.2
  history : String → Option (List ℝ)
  level : String → Option ℝ
  trend : String → Option ℝ
  hourly_history : String → Option (List (ℝ × ℝ))

/-- The freshly constructed service: no sensor has any state. -/
noncomputable def emptyState : State :=
  { history := fun _ => none
    level := fun _ => none
    trend := fun _ => none
    hourly_history := fun _ => none }

/-- `ForecastService.add_reading`: initialise the per-sensor state on
first contact, append the timestamped reading, keep the last 72. -/
noncomputable def add_reading (svc : State) (sensor_id : String) (timestamp pm25 : ℝ) :
    State :=
  let svc' :=
    match svc.hourly_history sensor_id with
    | some _ => svc
    | none =>
      { svc with
        hourly_history := fun s => if s = sensor_id then some [] else svc.hourly_history s
        level := fun s => if s = sensor_id then some pm25 else svc.level s
        trend := fun s => if s = sensor_id then some 0.0 else svc.trend s
        history := fun s => if s = sensor_id then some [] else svc.history s }
  let appended := ((svc'.hourly_history sensor_id).getD []) ++ [(timestamp, pm25)]
  let pruned := if 72 < appended.length then appended.drop (appended.length - 72) else appended
  { svc' with
    hourly_history := fun s => if s = sensor_id then some pruned else svc'.hourly_history s }

/-- `ForecastService._compute_residual_std`. -/
noncomputable def _compute_residual_std (svc : State) (sensor_id : String) : ℝ :=
  match svc.history sensor_id with
  | none => 3.0
  | some history =>
    if history.length < 10 then 3.0
    else
      let recent := history.drop (history.length - 60)
      if recent.length < 5 then 3.0
      else
        let mean := recent.sum / recent.length
        let variance := ((recent.map fun x => (x - mean) ^ (2 : ℕ)).sum) / recent.length
        max 1.0 (Real.sqrt variance)

/-- `ForecastService._hour_of_day_adjustment`. -/
noncomputable def _hour_of_day_adjustment (target_hour : ℝ) : ℝ :=
  let morning_rush := Real.exp (-0.5 * ((target_hour - 8.5) / 1.5) ^ (2 : ℕ)) * 0.15
  let evening_rush := Real.exp (-0.5 * ((target_hour - 17.5) / 1.8) ^ (2 : ℕ)) * 0.20
  let overnight_dip := if target_hour < 6 ∨ 22 < target_hour then -0.10 else 0.0
  1.0 + morning_rush + evening_rush + overnight_dip

/-- One step `t` of the Holt-Winters smoothing pass: the state is
`(levels, trends, seasonals, residuals)`, each appended to exactly as in
the source loop. -/
def hw_step {α : Type} [LinearOrderedField α] (alpha beta gamma : α) (data : List α)
    (m : ℕ) (st : List α × List α × List α × List α) (t : ℕ) :
    List α × List α × List α × List α :=
  let levels := st.1
  let trends := st.2.1
  let seasonals := st.2.2.1
  let residuals := st.2.2.2
  let y := data.getD t 0
  let s_prev := seasonals.getD (t - m) 0
  let y_hat := levels.getLast?.getD 0 + trends.getLast?.getD 0 + s_prev
  let new_level := alpha * (y - s_prev)
    + (1 - alpha) * (levels.getLast?.getD 0 + trends.getLast?.getD 0)
  let new_trend := beta * (new_level - levels.getLast?.getD 0)
    + (1 - beta) * trends.getLast?.getD 0
  let new_seasonal := gamma * (y - new_level) + (1 - gamma) * s_prev
  (levels ++ [new_level], trends ++ [new_trend], seasonals ++ [new_seasonal],
    residuals ++ [y - y_hat])

/-- `ForecastService._holt_winters`: returns `(forecasts, residuals)`.
Pure field arithmetic; in the real-number idealisation it cannot raise
(the `len >= 2 * SEASON_LENGTH` guard at the call site keeps every
index in range), so the `try/except` around its call site is dead. -/
def _holt_winters {α : Type} [LinearOrderedField α] (data : List α) (season_length : ℕ)
    (alpha beta gamma : α) : List α × List α :=
  let n := data.length
  let m := season_length
  let first_season := data.take m
  let level := first_season.sum / (m : α)
  let trend : α :=
    if 2 * m ≤ n then
      let second_season := (data.drop m).take m
      ((List.range m).map fun i =>
        (second_season.getD i 0 - first_season.getD i 0) / (m : α)).sum / (m : α)
    else 0
  let seasonal := (List.range m).map fun i => data.getD i 0 - level
  let result := (List.range' m (n - m)).foldl (hw_step alpha beta gamma data m)
    ([level], [trend], seasonal, [])
  let seasonals := result.2.2.1
  let residuals := result.2.2.2
  let final_level := result.1.getLast?.getD 0
  let final_trend := result.2.1.getLast?.getD 0
  let forecasts := (List.range' 1 m).map fun h =>
    let s_idx : ℤ := (seasonals.length : ℤ) - (m : ℤ) + (((h : ℤ) - 1) % (m : ℤ))
    let s_val := if 0 ≤ s_idx ∧ s_idx < (seasonals.length : ℤ)
      then seasonals.getD s_idx.toNat 0 else 0
    final_level + (h : α) * final_trend + s_val
  (forecasts, residuals)

/-- The seasonal model of `generate_forecast`: `some (hw_forecasts,
hw_se)` when at least `2 * SEASON_LENGTH = 48` hourly values exist,
else `none` (the fallback regime). -/
noncomputable def hw_model (svc : State) (sensor_id : String) : Option (List ℝ × ℝ) :=
  let hw_values := ((svc.hourly_history sensor_id).getD []).map Prod.snd
  if 2 * 24 ≤ hw_values.length then
    let fr := _holt_winters hw_values 24 svc.alpha svc.beta svc.gamma
    let hw_se :=
      if fr.2.isEmpty then 3.0
      else Real.sqrt (((fr.2.map fun r => r ^ (2 : ℕ)).sum) / fr.2.length)
    some (fr.1, hw_se)
  else none

/-- The per-point `(predicted, se)` pair of `generate_forecast` before
jitter and rounding: Holt-Winters interpolation between hourly steps on
the seasonal branch, Holt linear extrapolation with the diurnal
adjustment on the fallback branch. -/
noncomputable def point_estimate (hw : Option (List ℝ × ℝ))
    (level trend residual_std current_hour : ℝ) (minutes_ahead : ℤ) : ℝ × ℝ :=
  let hours_offset : ℝ := (minutes_ahead : ℝ) / 60.0
  match hw with
  | some fcse =>
    let hw_forecasts := fcse.1
    let hw_idx := hours_offset - 1
    let lower_idx : ℤ := max 0 ⌊hw_idx⌋
    let upper_idx : ℤ := min ((hw_forecasts.length : ℤ) - 1) (lower_idx + 1)
    let frac := hw_idx - (lower_idx : ℝ)
    let predicted :=
      if lower_idx < (hw_forecasts.length : ℤ) then
        hw_forecasts.getD lower_idx.toNat 0 * (1 - frac)
        + hw_forecasts.getD upper_idx.toNat 0 * frac
      else hw_forecasts.getLast?.getD 0
    (predicted, fcse.2)
  | none =>
    let steps_ahead := minutes_ahead * 12
    let base_forecast := level + trend * (steps_ahead : ℝ)
    let th := current_hour + hours_offset
    let target_hour := th - 24.0 * ⌊th / 24.0⌋
    (base_forecast * _hour_of_day_adjustment target_hour, residual_std)

/-- The 95%-equivalent confidence margin: `se * 1.96 *
sqrt(max(1, minutes_ahead / 30))`. -/
noncomputable def point_margin (se : ℝ) (minutes_ahead : ℤ) : ℝ :=
  se * 1.96 * Real.sqrt (max 1.0 ((minutes_ahead : ℝ) / 30.0))

/-- The tail of the point loop of `generate_forecast` (jitter, clamp to
1.0, rounding, confidence bounds). `jitter` is the `random.gauss(0,
se*0.05)` draw, modelled as an arbitrary input (its support is all of
`ℝ`). -/
noncomputable def mk_forecast_point (now_ts : ℝ) (minutes_ahead : ℤ) (pse : ℝ × ℝ)
    (jitter : ℝ) : ForecastPoint :=
  let predicted := max 1.0 (round1 (pse.1 + jitter))
  let margin := point_margin pse.2 minutes_ahead
  { timestamp := now_ts + (minutes_ahead : ℝ)
    predicted_pm25 := predicted
    confidence_lower := max 0.0 (round1 (predicted - margin))
    confidence_upper := round1 (predicted + margin) }

/-- `ForecastService.generate_forecast`. Returns `.error` exactly where
the Python raises: `(hours_ahead * 60) // interval_minutes` divides by
zero when `interval_minutes = 0`. `now_ts` (minutes) and `current_hour`
are the two wall-clock inputs; `rng` is the stream of `random.gauss`
draws, one per forecast point. -/
noncomputable def generate_forecast (svc : State) (sensor_id : String)
    (hours_ahead interval_minutes : ℤ) (now_ts current_hour : ℝ) (rng : ℕ → ℝ) :
    Except String (List ForecastPoint) :=
  if interval_minutes = 0 then .error "ZeroDivisionError"
  else
    let hw := hw_model svc sensor_id
    let level := (svc.level sensor_id).getD 15.0
    let trend := (svc.trend sensor_id).getD 0.0
    let residual_std := _compute_residual_std svc sensor_id
    let total_intervals := (hours_ahead * 60).fdiv interval_minutes
    .ok ((List.range total_intervals.toNat).map fun (k : ℕ) =>
      let minutes_ahead : ℤ := ((k : ℤ) + 1) * interval_minutes
      mk_forecast_point now_ts minutes_ahead
        (point_estimate hw level trend residual_std current_hour minutes_ahead) (rng k))

/-- The standard error actually used for every point of one
`generate_forecast` call: the Holt-Winters `hw_se` when the seasonal
model is active, the residual std of the 5-second history otherwise.
`point_estimate` returns exactly this value in its second component,
independently of the horizon. -/
noncomputable def forecast_se (svc : State) (sensor_id : String) : ℝ :=
  match hw_model svc sensor_id with
  | some fcse => fcse.2
  | none => _compute_residual_std svc sensor_id

/-- Feeding a list of `(timestamp, pm25)` readings through successive
`add_reading` calls. -/
noncomputable def feed (svc : State) (sensor_id : String) (ps : List (ℝ × ℝ)) : State :=
  ps.foldl (fun s p => add_reading s sensor_id p.1 p.2) svc

/-- A 48-value (two full seasons) hourly history: the first season is
two spikes followed by a constant 320 level, the second season is
chosen so that every one-step Holt-Winters residual equals `-10`
(hence `mse = 100`, `se = 10`) while the one-hour and two-hour
forecasts come out as `-84` and `-210`. All values are positive. -/
noncomputable def c4values : List ℝ :=
  [54887/230, 14514/115, 320, 320, 320, 320, 320, 320, 320, 320, 320, 320,
   320, 320, 320, 320, 320, 320, 320, 320, 320, 320, 320, 320,
   25561/115, 23039/230, 32659/115, 31478/115, 12105/46, 11605/46, 27728/115,
   26409/115, 50111/230, 9467/46, 4449/23, 20788/115, 38593/230, 35541/230,
   3242/23, 2923/23, 25971/230, 22643/230, 9623/115, 1578/23, 2449/46,
   8641/230, 108/5, 613/115]

/-- The `c4values` readings as timestamped pairs. -/
noncomputable def c4pairs : List (ℝ × ℝ) := c4values.map fun v => ((0 : ℝ), v)

/-- The service state after feeding the 48 `c4data` readings for sensor
`cam-001` into a fresh service. -/
noncomputable def c4state : State := feed emptyState "cam-001" c4pairs

/-- A constant 48-reading history (pm25 = 50 throughout). -/
noncomputable def constPairs : List (ℝ × ℝ) := List.replicate 48 ((0 : ℝ), (50 : ℝ))

/-- The service state after feeding 48 constant readings for sensor
`cam-001` into a fresh service: the seasonal model is active with zero
residuals, so `se = 0` and confidence widths vanish. -/
noncomputable def constState : State := feed emptyState "cam-001" constPairs

end ForecastService

/-- A concrete two-sensor configuration (used to instantiate theorems on
a data set below the kriging threshold). -/
noncomputable def sampleSensors : List SensorData :=
  [⟨40.75, -73.9, ⟨20.0, 30.0, 15.0, 200.0⟩⟩, ⟨40.76, -73.95, ⟨30.0, 40.0, 20.0, 250.0⟩⟩]

/-! ## RoutingService (`routing_service.py`)

The A* search is embedded with explicit state. Python's `heapq` is
modelled as extraction of the lexicographically smallest
`(f, (lat, lng))` entry (the heap always pops a smallest element; the
properties proved below do not depend on which entry is popped).
Python dicts are association lists with most-recent-write-wins lookup.
The two unbounded loops are given fuel: the search loop's fuel is the
source's own `_MAX_ITERATIONS` cap, and the path-reconstruction walk
gets fuel `came_from.length + 1`, which the invariant proof below shows
is never exhausted (the parent map stays acyclic), exactly as the
Python `while node is not None` terminates. `g_score[current]` is
modelled with default 0 where Python would raise `KeyError`; every
popped node provably has a score, so the default is never read. -/

namespace RoutingService

/-- `_GRID_STEP` (degrees). -/
noncomputable def _GRID_STEP : ℝ := 0.002

/-- `_MAX_ITERATIONS`. -/
def _MAX_ITERATIONS : ℕ := 15000

/-- `_snap_to_grid`: `round(round(value / step) * step, 6)`. -/
noncomputable def _snap_to_grid (value step : ℝ) : ℝ :=
  round6 (((pyround (value / step) : ℤ) : ℝ) * step)

/-- `RoutingService._interpolate_pollution_at`: IDW (power 2, distance
floored at 0.01 km) over the sensor cache, default 15.0. -/
noncomputable def _interpolate_pollution_at (cache : List SensorData) (lat lng : ℝ) : ℝ :=
  if cache.isEmpty then 15.0
  else
    let acc := cache.foldl (fun (acc : ℝ × ℝ) s =>
      let dist := max (_haversine lat lng s.lat s.lng) 0.01
      let w := 1.0 / dist ^ (2 : ℕ)
      (acc.1 + w * s.pollution.pm25, acc.2 + w)) (0.0, 0.0)
    if acc.2 = 0 then 15.0 else acc.1 / acc.2

/-- `RoutingService._get_neighbors`: the 8-connected grid neighbours,
each coordinate rounded to 6 decimals. -/
noncomputable def _get_neighbors (lat lng step : ℝ) : List (ℝ × ℝ) :=
  [-step, 0, step].flatMap fun dlat =>
    [-step, 0, step].filterMap fun dlng =>
      if dlat = 0 ∧ dlng = 0 then none
      else some (round6 (lat + dlat), round6 (lng + dlng))

/-- Association-list lookup (Python dict read). -/
noncomputable def alookup {β : Type} (l : List ((ℝ × ℝ) × β)) (k : ℝ × ℝ) : Option β :=
  (l.find? fun e => decide (e.1 = k)).map Prod.snd

/-- Association-list write (Python dict assignment): the new binding
shadows and removes any previous binding of the key. -/
noncomputable def aupsert {β : Type} (l : List ((ℝ × ℝ) × β)) (k : ℝ × ℝ) (v : β) :
    List ((ℝ × ℝ) × β) :=
  (k, v) :: l.filter fun e => ! decide (e.1 = k)

/-- The strict lexicographic order `heapq` uses on `(f, (lat, lng))`. -/
def heapLt (a b : ℝ × (ℝ × ℝ)) : Prop :=
  a.1 < b.1 ∨ (a.1 = b.1 ∧ (a.2.1 < b.2.1 ∨ (a.2.1 = b.2.1 ∧ a.2.2 < b.2.2)))

noncomputable instance (a b : ℝ × (ℝ × ℝ)) : Decidable (heapLt a b) := by
  unfold heapLt
  infer_instance

/-- `heapq.heappop`: a smallest entry and the rest (first such entry on
ties). -/
noncomputable def popMin : List (ℝ × (ℝ × ℝ)) → Option ((ℝ × (ℝ × ℝ)) × List (ℝ × (ℝ × ℝ)))
  | [] => none
  | x :: xs =>
    match popMin xs with
    | none => some (x, [])
    | some (m, rest) => if heapLt m x then some (m, x :: rest) else some (x, rest)

/-- The reconstruction walk `while node is not None: path.append(node);
node = came_from.get(node)`, with fuel standing in for the absent loop
bound (never exhausted: see `reconstruct_reaches_start`). -/
noncomputable def reconstruct (cf : List ((ℝ × ℝ) × Option (ℝ × ℝ))) :
    ℕ → Option (ℝ × ℝ) → List (ℝ × ℝ)
  | _, none => []
  | 0, some _ => []
  | fuel + 1, some n => n :: reconstruct cf fuel ((alookup cf n).getD none)

/-- The body of one A* relaxation over one neighbour: Python's
`for neighbor in self._get_neighbors(...)` body, state
`(open_set, came_from, g_score)`. -/
noncomputable def relax (cache : List SensorData) (goal : ℝ × ℝ)
    (pollution_weight : ℝ) (current : ℝ × ℝ)
    (st : List (ℝ × (ℝ × ℝ)) × List ((ℝ × ℝ) × Option (ℝ × ℝ)) × List ((ℝ × ℝ) × ℝ))
    (neighbor : ℝ × ℝ) :
    List (ℝ × (ℝ × ℝ)) × List ((ℝ × ℝ) × Option (ℝ × ℝ)) × List ((ℝ × ℝ) × ℝ) :=
  let dist_km := _haversine current.1 current.2 neighbor.1 neighbor.2
  let pollution := _interpolate_pollution_at cache neighbor.1 neighbor.2
  let edge_cost := dist_km * (1.0 + pollution_weight * (pollution / 50.0))
  let tentative_g := (alookup st.2.2 current).getD 0 + edge_cost
  let relaxes : Bool := match alookup st.2.2 neighbor with
    | none => true
    | some gn => decide (tentative_g < gn)
  if relaxes then
    let h := _haversine neighbor.1 neighbor.2 goal.1 goal.2
    (st.1 ++ [(tentative_g + h, neighbor)],
     aupsert st.2.1 neighbor (some current),
     aupsert st.2.2 neighbor tentative_g)
  else st

/-- The A* main loop (`while open_set and iterations < _MAX_ITERATIONS`),
fuel = remaining iterations. -/
noncomputable def a_star_loop (cache : List SensorData) (start goal : ℝ × ℝ)
    (step pollution_weight : ℝ) :
    ℕ → List (ℝ × (ℝ × ℝ)) → List ((ℝ × ℝ) × Option (ℝ × ℝ)) → List ((ℝ × ℝ) × ℝ) →
    List (ℝ × ℝ)
  | 0, _, _, _ => [start, goal]
  | fuel + 1, open_set, came_from, g_score =>
    match popMin open_set with
    | none => [start, goal]
    | some (cur, rest) =>
      let current := cur.2
      if _haversine current.1 current.2 goal.1 goal.2 < step * 111.0 * 1.5 then
        (goal :: reconstruct came_from (came_from.length + 1) (some current)).reverse
      else
        let st := (_get_neighbors current.1 current.2 step).foldl
          (relax cache goal pollution_weight current) (rest, came_from, g_score)
        a_star_loop cache start goal step pollution_weight fuel st.1 st.2.1 st.2.2

/-- `RoutingService._a_star`. -/
noncomputable def _a_star (cache : List SensorData) (start goal : ℝ × ℝ)
    (step pollution_weight : ℝ) : List (ℝ × ℝ) :=
  a_star_loop cache start goal step pollution_weight _MAX_ITERATIONS
    [(0.0, start)] [(start, none)] [(start, 0.0)]

/-- `RoutingService._compute_path_exposure`: `(total_distance_km,
total_exposure)` with pollution sampled at segment midpoints. -/
noncomputable def _compute_path_exposure (cache : List SensorData)
    (path : List (ℝ × ℝ)) : ℝ × ℝ :=
  (List.range (path.length - 1)).foldl (fun (acc : ℝ × ℝ) i =>
    let p1 := path.getD i (0, 0)
    let p2 := path.getD (i + 1) (0, 0)
    let seg_dist := _haversine p1.1 p1.2 p2.1 p2.2
    let seg_pollution := _interpolate_pollution_at cache ((p1.1 + p2.1) / 2.0)
      ((p1.2 + p2.2) / 2.0)
    (acc.1 + seg_dist, acc.2 + seg_pollution * seg_dist)) (0.0, 0.0)

/-- The `comparison` dict of `models.GreenRoute`. -/
structure RouteComparison where
  shortest_path_exposure : ℝ
  green_path_exposure : ℝ
  reduction_percent : ℝ
  shortest_path_distance_km : ℝ
  green_path_distance_km : ℝ

/-- `models.GreenRoute` (fields used here). -/
structure GreenRoute where
  path : List (List ℝ)
  total_distance_km : ℝ
  avg_pollution : ℝ
  estimated_exposure : ℝ
  comparison : RouteComparison

/-- `RoutingService.find_green_route`: A* with pollution weight 2.0
for the green route, 0.0 for the shortest, exposure comparison. -/
noncomputable def find_green_route (cache : List SensorData)
    (from_lat from_lng to_lat to_lng : ℝ) : GreenRoute :=
  let step := _GRID_STEP
  let start := (_snap_to_grid from_lat step, _snap_to_grid from_lng step)
  let goal := (_snap_to_grid to_lat step, _snap_to_grid to_lng step)
  let green_path := _a_star cache start goal step 2.0
  let gde := _compute_path_exposure cache green_path
  let short_path := _a_star cache start goal step 0.0
  let sde := _compute_path_exposure cache short_path
  let reduction := if 0 < sde.2 then round1 ((1.0 - gde.2 / sde.2) * 100.0) else 0.0
  let path_coords := green_path.map fun p => [round6 p.1, round6 p.2]
  let avg_pollution := if 0 < gde.1 then gde.2 / gde.1 else 0.0
  { path := path_coords
    total_distance_km := round2 gde.1
    avg_pollution := round1 avg_pollution
    estimated_exposure := round1 gde.2
    comparison :=
      { shortest_path_exposure := round1 sde.2
        green_path_exposure := round1 gde.2
        reduction_percent := max 0.0 reduction
        shortest_path_distance_km := round2 sde.1
        green_path_distance_km := round2 gde.1 } }

/-- The value a key's `g_score` entry carries (default 0 when absent;
only read on present keys in the proofs). -/
noncomputable def gval (gs : List ((ℝ × ℝ) × ℝ)) (k : ℝ × ℝ) : ℝ :=
  (alookup gs k).getD 0

/-- The acyclicity invariant of the A* bookkeeping: together with a
ghost assignment `τ` of timestamps to nodes, every `came_from` edge
strictly decreases the `(g_score, τ)` lexicographic measure, only
`start` maps to `None`, and `came_from` and `g_score` bind the same
keys, with all scores nonnegative and `g_score[start] = 0`. -/
structure AInv (start : ℝ × ℝ) (cf : List ((ℝ × ℝ) × Option (ℝ × ℝ)))
    (gs : List ((ℝ × ℝ) × ℝ)) (τ : (ℝ × ℝ) → ℕ) : Prop where
  keys_eq : ∀ k, (alookup cf k).isSome ↔ (alookup gs k).isSome
  start_cf : alookup cf start = some none
  start_gs : alookup gs start = some 0
  none_start : ∀ k v, alookup cf k = some v → v = none → k = start
  gs_nonneg : ∀ k g, alookup gs k = some g → 0 ≤ g
  parent : ∀ n c, alookup cf n = some (some c) →
    (alookup gs c).isSome ∧
    (gval gs c < gval gs n ∨ (gval gs c = gval gs n ∧ τ c < τ n))

/-- The rank of a node: how many `came_from` entries carry a strictly
smaller `(g_score, τ)` measure. A parent's rank is strictly below its
child's, so reconstruction chains cannot exceed `came_from.length`. -/
noncomputable def rank (gs : List ((ℝ × ℝ) × ℝ)) (τ : (ℝ × ℝ) → ℕ)
    (cf : List ((ℝ × ℝ) × Option (ℝ × ℝ))) (n : ℝ × ℝ) : ℕ :=
  cf.countP fun e =>
    decide (gval gs e.1 < gval gs n ∨ (gval gs e.1 = gval gs n ∧ τ e.1 < τ n))

end RoutingService

/-! ## Theorems -/

section PyroundLemmas

variable {α : Type} [LinearOrderedField α] [FloorRing α]

theorem pyround_intCast (n : ℤ) : pyround (n : α) = n := by
  simp [pyround, Int.fract_intCast, Int.floor_intCast]

theorem floor_le_pyround (x : α) : ⌊x⌋ ≤ pyround x := by
  unfold pyround
  split
  · exact le_refl _
  · split
    · omega
    · split <;> omega

theorem pyround_le_floor_add_one (x : α) : pyround x ≤ ⌊x⌋ + 1 := by
  unfold pyround
  split
  · omega
  · split
    · omega
    · split <;> omega

theorem pyround_le (x : α) : (pyround x : α) ≤ x + 1 / 2 := by
  have hfr : (⌊x⌋ : α) + Int.fract x = x := Int.floor_add_fract x
  unfold pyround
  split
  · nlinarith [Int.fract_nonneg x]
  · rename_i h
    push_neg at h
    split
    · push_cast
      nlinarith
    · rename_i h2
      push_neg at h2
      have : Int.fract x = 1 / 2 := le_antisymm h2 h
      split
      · nlinarith
      · push_cast
        nlinarith

theorem le_pyround (x : α) : x - 1 / 2 ≤ (pyround x : α) := by
  have hfr : (⌊x⌋ : α) + Int.fract x = x := Int.floor_add_fract x
  unfold pyround
  split
  · nlinarith
  · rename_i h
    push_neg at h
    split
    · push_cast
      nlinarith [Int.fract_lt_one x]
    · split
      · nlinarith
      · push_cast
        nlinarith [Int.fract_lt_one x]

theorem pyround_mono {x y : α} (hxy : x ≤ y) : pyround x ≤ pyround y := by
  have hf : ⌊x⌋ ≤ ⌊y⌋ := Int.floor_le_floor hxy
  rcases lt_or_eq_of_le hf with hlt | heq
  · calc pyround x ≤ ⌊x⌋ + 1 := pyround_le_floor_add_one x
    _ ≤ ⌊y⌋ := by omega
    _ ≤ pyround y := floor_le_pyround y
  · have hfr : Int.fract x ≤ Int.fract y := by
      unfold Int.fract
      rw [heq]
      linarith
    unfold pyround
    rw [heq]
    by_cases hy : Int.fract y < 1 / 2
    · have hx : Int.fract x < 1 / 2 := lt_of_le_of_lt hfr hy
      rw [if_pos hx, if_pos hy]
    · rw [if_neg hy]
      by_cases hx : Int.fract x < 1 / 2
      · rw [if_pos hx]
        split
        · omega
        · split <;> omega
      · rw [if_neg hx]
        by_cases hx2 : 1 / 2 < Int.fract x
        · have hy2 : 1 / 2 < Int.fract y := lt_of_lt_of_le hx2 hfr
          rw [if_pos hx2, if_pos hy2]
        · rw [if_neg hx2]
          by_cases hy2 : 1 / 2 < Int.fract y
          · rw [if_pos hy2]
            split <;> omega
          · rw [if_neg hy2]

theorem pyround_ratCast (q : ℚ) : pyround ((q : α)) = pyround q := by
  unfold pyround
  rw [Rat.floor_cast, ← Rat.cast_fract]
  have h1 : ((Int.fract q : ℚ) : α) < 1 / 2 ↔ Int.fract q < 1 / 2 := by
    rw [show ((1 : α) / 2) = ((1 / 2 : ℚ) : α) by norm_num]
    exact Rat.cast_lt
  have h2 : (1 : α) / 2 < ((Int.fract q : ℚ) : α) ↔ 1 / 2 < Int.fract q := by
    rw [show ((1 : α) / 2) = ((1 / 2 : ℚ) : α) by norm_num]
    exact Rat.cast_lt
  split
  · rename_i h
    rw [if_pos (h1.mp h)]
  · rename_i h
    rw [if_neg (fun hc => h (h1.mpr hc))]
    split
    · rename_i h'
      rw [if_pos (h2.mp h')]
    · rename_i h'
      rw [if_neg (fun hc => h' (h2.mpr hc))]

end PyroundLemmas

section Round1Lemmas

variable {α : Type} [LinearOrderedField α] [FloorRing α]

theorem round1_intCast (n : ℤ) : round1 ((n : α)) = n := by
  unfold round1
  rw [show (10 : α) * n = ((10 * n : ℤ) : α) by push_cast; ring, pyround_intCast]
  push_cast
  ring

theorem round1_mono {x y : α} (hxy : x ≤ y) : round1 x ≤ round1 y := by
  unfold round1
  have := pyround_mono (show (10 : α) * x ≤ 10 * y by linarith)
  have hc : ((pyround (10 * x) : α)) ≤ ((pyround (10 * y) : α)) := by exact_mod_cast this
  linarith

theorem round1_round1 (x : α) : round1 (round1 x) = round1 x := by
  unfold round1
  rw [show (10 : α) * ((pyround (10 * x) : α) / 10) = ((pyround (10 * x) : ℤ) : α) by ring,
    pyround_intCast]

theorem round1_le (x : α) : round1 x ≤ x + 1 / 20 := by
  unfold round1
  have := pyround_le ((10 : α) * x)
  linarith

theorem le_round1 (x : α) : x - 1 / 20 ≤ round1 x := by
  unfold round1
  have := le_pyround ((10 : α) * x)
  linarith

theorem round1_ratCast (q : ℚ) : round1 ((q : α)) = ((round1 q : ℚ) : α) := by
  unfold round1
  rw [show (10 : α) * q = ((10 * q : ℚ) : α) by push_cast; ring, pyround_ratCast]
  push_cast
  ring

end Round1Lemmas

/-! ### C5: the two AQI conversions -/

theorem pm25_to_aqi_agree (x : ℝ) :
    PhysicsEngine.pm25_to_aqi x = MeshService._pm25_to_aqi x := rfl

/-- C5: both `PhysicsEngine.pm25_to_aqi` and `MeshService._pm25_to_aqi`
map PM2.5 = 12.0 to AQI 50, 0.0 to 0 and 500.4 to 500, and the two
functions agree on every input (they share the EPA breakpoint table). -/
theorem C5_aqi_breakpoint_anchors_and_agreement :
    PhysicsEngine.pm25_to_aqi 12.0 = 50 ∧
    PhysicsEngine.pm25_to_aqi 0.0 = 0 ∧
    PhysicsEngine.pm25_to_aqi 500.4 = 500 ∧
    MeshService._pm25_to_aqi 12.0 = 50 ∧
    MeshService._pm25_to_aqi 0.0 = 0 ∧
    MeshService._pm25_to_aqi 500.4 = 500 ∧
    ∀ x : ℝ, PhysicsEngine.pm25_to_aqi x = MeshService._pm25_to_aqi x := by
  have h12 : PhysicsEngine.pm25_to_aqi 12.0 = 50 := by
    unfold PhysicsEngine.pm25_to_aqi
    rw [show max (0.0 : ℝ) 12.0 = 12.0 by norm_num]
    rw [if_pos (by norm_num)]
    rw [show ((50 : ℝ) - 0) / (12.0 - 0.0) * (12.0 - 0.0) + 0 = ((50 : ℤ) : ℝ) by norm_num]
    exact pyround_intCast 50
  have h0 : PhysicsEngine.pm25_to_aqi 0.0 = 0 := by
    unfold PhysicsEngine.pm25_to_aqi
    rw [show max (0.0 : ℝ) 0.0 = 0.0 by norm_num]
    rw [if_pos (by norm_num)]
    rw [show ((50 : ℝ) - 0) / (12.0 - 0.0) * (0.0 - 0.0) + 0 = ((0 : ℤ) : ℝ) by norm_num]
    exact pyround_intCast 0
  have h500 : PhysicsEngine.pm25_to_aqi 500.4 = 500 := by
    unfold PhysicsEngine.pm25_to_aqi
    rw [show max (0.0 : ℝ) 500.4 = 500.4 by norm_num]
    rw [if_neg (by norm_num), if_neg (by norm_num), if_neg (by norm_num),
      if_neg (by norm_num), if_neg (by norm_num), if_pos (by norm_num)]
    rw [show ((500 : ℝ) - 301) / (500.4 - 250.5) * (500.4 - 250.5) + 301 = ((500 : ℤ) : ℝ) by
      norm_num]
    exact pyround_intCast 500
  exact ⟨h12, h0, h500, (pm25_to_aqi_agree 12.0).symm.trans h12,
    (pm25_to_aqi_agree 0.0).symm.trans h0, (pm25_to_aqi_agree 500.4).symm.trans h500,
    pm25_to_aqi_agree⟩

/-! ### C1: the `< 4` sensors fallback grid is pointwise direct IDW -/

theorem foldl_pair_sum {γ : Type} (f g : γ → ℝ) (l : List γ) (a b : ℝ) :
    l.foldl (fun (acc : ℝ × ℝ) s => (acc.1 + f s, acc.2 + g s)) (a, b)
      = (a + (l.map f).sum, b + (l.map g).sum) := by
  induction l generalizing a b with
  | nil => simp
  | cons s t ih =>
    simp only [List.foldl_cons, List.map_cons, List.sum_cons, ih]
    exact Prod.ext (by ring) (by ring)

theorem idw_weight_pos (lat lng : ℝ) (s : SensorData) :
    0 < 1.0 / max (_haversine lat lng s.lat s.lng) 0.05 ^ (2.5 : ℝ) := by
  have hd : (0 : ℝ) < max (_haversine lat lng s.lat s.lng) 0.05 :=
    lt_of_lt_of_le (by norm_num) (le_max_right _ _)
  have := Real.rpow_pos_of_pos hd 2.5
  positivity

theorem idw_interpolate_eq_direct (lat lng : ℝ) (sensors : List SensorData) :
    MeshService._idw_interpolate lat lng sensors = MeshService.idw_direct lat lng sensors := by
  match sensors with
  | [] => rfl
  | s :: t =>
    unfold MeshService._idw_interpolate MeshService.idw_direct
    simp only [List.isEmpty_cons, Bool.false_eq_true, if_false]
    rw [show (fun (acc : ℝ × ℝ) sensor =>
        (acc.1 + 1.0 / max (_haversine lat lng sensor.lat sensor.lng) 0.05 ^ (2.5 : ℝ) *
          sensor.pollution.pm25,
         acc.2 + 1.0 / max (_haversine lat lng sensor.lat sensor.lng) 0.05 ^ (2.5 : ℝ)))
      = (fun (acc : ℝ × ℝ) sensor =>
        (acc.1 + (fun (q : SensorData) =>
            1.0 / max (_haversine lat lng q.lat q.lng) 0.05 ^ (2.5 : ℝ) *
              q.pollution.pm25) sensor,
         acc.2 + (fun (q : SensorData) =>
            1.0 / max (_haversine lat lng q.lat q.lng) 0.05 ^ (2.5 : ℝ)) sensor)) from rfl]
    rw [foldl_pair_sum]
    have hpos : 0 < ((s :: t).map fun (q : SensorData) =>
        1.0 / max (_haversine lat lng q.lat q.lng) 0.05 ^ (2.5 : ℝ)).sum := by
      apply List.sum_pos
      · intro x hx
        rw [List.mem_map] at hx
        obtain ⟨q, _, rfl⟩ := hx
        exact idw_weight_pos lat lng q
      · simp
    simp only [show (0.0 : ℝ) = 0 from by norm_num, zero_add]
    rw [if_neg (ne_of_gt hpos)]

theorem generate_grid_cell_fallback
    (svc : MeshService.State) (sensors : List SensorData)
    (boundsArg : Option Bounds) (resolutionArg : Option ℤ)
    (hlen : sensors.length < 4) (r c : ℕ)
    (hr : r < (MeshService.generate_grid svc sensors boundsArg resolutionArg).resolution.toNat)
    (hc : c < (MeshService.generate_grid svc sensors boundsArg resolutionArg).resolution.toNat) :
    (((MeshService.generate_grid svc sensors boundsArg resolutionArg).values.getD r []).getD c 0)
      = round1 (max 0.0 (MeshService._idw_interpolate
          (MeshService.cell_lat
            (MeshService.generate_grid svc sensors boundsArg resolutionArg).bounds
            (MeshService.generate_grid svc sensors boundsArg resolutionArg).resolution r)
          (MeshService.cell_lng
            (MeshService.generate_grid svc sensors boundsArg resolutionArg).bounds
            (MeshService.generate_grid svc sensors boundsArg resolutionArg).resolution c)
          sensors)) := by
  have hk : ¬ (4 ≤ sensors.length) := by omega
  unfold MeshService.generate_grid at *
  simp only [if_neg hk] at *
  rw [List.getD_eq_getElem?_getD, List.getD_eq_getElem?_getD, List.getElem?_map,
    List.getElem?_range hr]
  simp only [Option.map_some', Option.getD_some]
  rw [List.getElem?_map, List.getElem?_range hc]
  simp only [Option.map_some', Option.getD_some, MeshService.cell_lat, MeshService.cell_lng]

/-- C1: with fewer than 4 sensor readings, `generate_grid` takes the IDW
fallback path, and every grid cell equals the direct inverse-distance
computation (power 2.5, distance floored at 0.05 km) at that cell's
centre, with the same `round(·, 1)` and `max(0, ·)` clamp. -/
theorem C1_generate_grid_fallback_is_direct_idw
    (svc : MeshService.State) (sensors : List SensorData)
    (boundsArg : Option Bounds) (resolutionArg : Option ℤ)
    (hlen : sensors.length < 4) (r c : ℕ)
    (hr : r < (MeshService.generate_grid svc sensors boundsArg resolutionArg).resolution.toNat)
    (hc : c < (MeshService.generate_grid svc sensors boundsArg resolutionArg).resolution.toNat) :
    (((MeshService.generate_grid svc sensors boundsArg resolutionArg).values.getD r []).getD c 0)
      = round1 (max 0.0 (MeshService.idw_direct
          (MeshService.cell_lat
            (MeshService.generate_grid svc sensors boundsArg resolutionArg).bounds
            (MeshService.generate_grid svc sensors boundsArg resolutionArg).resolution r)
          (MeshService.cell_lng
            (MeshService.generate_grid svc sensors boundsArg resolutionArg).bounds
            (MeshService.generate_grid svc sensors boundsArg resolutionArg).resolution c)
          sensors)) := by
  rw [generate_grid_cell_fallback svc sensors boundsArg resolutionArg hlen r c hr hc,
    idw_interpolate_eq_direct]

/-- C1 witness: the theorem applied to a concrete two-sensor input at
cell (0, 0) of the default 30×30 grid. -/
theorem C1_generate_grid_fallback_is_direct_idw_witness :
    (((MeshService.generate_grid {} sampleSensors none none).values.getD 0 []).getD 0 0)
      = round1 (max 0.0 (MeshService.idw_direct
          (MeshService.cell_lat
            (MeshService.generate_grid {} sampleSensors none none).bounds
            (MeshService.generate_grid {} sampleSensors none none).resolution 0)
          (MeshService.cell_lng
            (MeshService.generate_grid {} sampleSensors none none).bounds
            (MeshService.generate_grid {} sampleSensors none none).resolution 0)
          sampleSensors)) :=
  C1_generate_grid_fallback_is_direct_idw {} sampleSensors none none
    (by norm_num [sampleSensors]) 0 0
    (by rw [show (MeshService.generate_grid {} sampleSensors none none).resolution = 30
          from rfl]
        decide)
    (by rw [show (MeshService.generate_grid {} sampleSensors none none).resolution = 30
          from rfl]
        decide)

/-! ### C7: totality of the Gaussian plume evaluation -/

/-- C7: `_gaussian_plume` takes the box-model branch whenever the
downwind distance is ≤ 0 or the wind speed is below the 0.3 m/s calm
floor; on the plume branch, the wind speed and both dispersion
coefficients are clamped (`max u 0.5`, `max σ 1`) before appearing in
the denominator, which is therefore bounded away from zero. -/
theorem C7_gaussian_plume_calm_fallback_and_clamps
    (Q u x y z H : ℝ) (stability : String) :
    ((x ≤ 0 ∨ u < 0.3) →
      PhysicsEngine._gaussian_plume Q u x y z H stability = PhysicsEngine.box_model Q) ∧
    (0 < x → 0.3 ≤ u →
      (1 ≤ max ((PhysicsEngine.stability_params stability).sy_c *
          ((x / 1000.0) ^ (PhysicsEngine.stability_params stability).sy_e) * 1000.0) 1.0 ∧
       1 ≤ max ((PhysicsEngine.stability_params stability).sz_c *
          ((x / 1000.0) ^ (PhysicsEngine.stability_params stability).sz_e) * 1000.0) 1.0 ∧
       0.5 ≤ max u 0.5 ∧
       0 < 2.0 * Real.pi * max u 0.5 *
          max ((PhysicsEngine.stability_params stability).sy_c *
            ((x / 1000.0) ^ (PhysicsEngine.stability_params stability).sy_e) * 1000.0) 1.0 *
          max ((PhysicsEngine.stability_params stability).sz_c *
            ((x / 1000.0) ^ (PhysicsEngine.stability_params stability).sz_e) * 1000.0) 1.0 ∧
       PhysicsEngine._gaussian_plume Q u x y z H stability =
         Q / (2.0 * Real.pi * max u 0.5 *
            max ((PhysicsEngine.stability_params stability).sy_c *
              ((x / 1000.0) ^ (PhysicsEngine.stability_params stability).sy_e) * 1000.0) 1.0 *
            max ((PhysicsEngine.stability_params stability).sz_c *
              ((x / 1000.0) ^ (PhysicsEngine.stability_params stability).sz_e) * 1000.0) 1.0) *
          Real.exp (-0.5 * (y / max ((PhysicsEngine.stability_params stability).sy_c *
              ((x / 1000.0) ^ (PhysicsEngine.stability_params stability).sy_e) * 1000.0) 1.0)
              ^ (2 : ℕ)) *
          (Real.exp (-0.5 * ((z - H) / max ((PhysicsEngine.stability_params stability).sz_c *
              ((x / 1000.0) ^ (PhysicsEngine.stability_params stability).sz_e) * 1000.0) 1.0)
              ^ (2 : ℕ)) +
           Real.exp (-0.5 * ((z + H) / max ((PhysicsEngine.stability_params stability).sz_c *
              ((x / 1000.0) ^ (PhysicsEngine.stability_params stability).sz_e) * 1000.0) 1.0)
              ^ (2 : ℕ))) * 1e6)) := by
  constructor
  · intro h
    unfold PhysicsEngine._gaussian_plume
    rw [if_pos h]
  · intro hx hu
    have hcond : ¬ (x ≤ 0 ∨ u < 0.3) := by
      push_neg
      exact ⟨hx, hu⟩
    have h1y : (1 : ℝ) ≤ max ((PhysicsEngine.stability_params stability).sy_c *
        ((x / 1000.0) ^ (PhysicsEngine.stability_params stability).sy_e) * 1000.0) 1.0 := by
      rw [le_max_iff]
      right
      norm_num
    have h1z : (1 : ℝ) ≤ max ((PhysicsEngine.stability_params stability).sz_c *
        ((x / 1000.0) ^ (PhysicsEngine.stability_params stability).sz_e) * 1000.0) 1.0 := by
      rw [le_max_iff]
      right
      norm_num
    have hu' : (0.5 : ℝ) ≤ max u 0.5 := by
      rw [le_max_iff]
      right
      norm_num
    refine ⟨h1y, h1z, hu', ?_, ?_⟩
    · have hpi : (0 : ℝ) < 2.0 * Real.pi := by positivity
      have hup : (0 : ℝ) < max u 0.5 := lt_of_lt_of_le (by norm_num) hu'
      have hyp : (0 : ℝ) < max ((PhysicsEngine.stability_params stability).sy_c *
          ((x / 1000.0) ^ (PhysicsEngine.stability_params stability).sy_e) * 1000.0) 1.0 :=
        lt_of_lt_of_le one_pos h1y
      have hzp : (0 : ℝ) < max ((PhysicsEngine.stability_params stability).sz_c *
          ((x / 1000.0) ^ (PhysicsEngine.stability_params stability).sz_e) * 1000.0) 1.0 :=
        lt_of_lt_of_le one_pos h1z
      exact mul_pos (mul_pos (mul_pos hpi hup) hyp) hzp
    · unfold PhysicsEngine._gaussian_plume
      rw [if_neg hcond]

/-! ### C8: health score range and risk label -/

theorem health_score_nonneg (pm25 pm10 no2 noise_db : ℝ) :
    0 ≤ HealthService._compute_health_score pm25 pm10 no2 noise_db :=
  le_max_left _ _

theorem health_score_le_100 (pm25 pm10 no2 noise_db : ℝ) :
    HealthService._compute_health_score pm25 pm10 no2 noise_db ≤ 100 :=
  max_le (by norm_num) (min_le_left _ _)

theorem risk_level_low_of_ge_80 {s : ℤ} (h : 80 ≤ s) :
    HealthService._determine_risk_level s = "Low" := if_pos h

/-- C8: for every pollution and noise input the health score lies in
[0, 100], and a score ≥ 80 is labelled "Low" risk. -/
theorem C8_health_score_range_and_low_risk
    (pollution : PollutionData) (noise : NoiseData) :
    0 ≤ (HealthService.calculate_health_impact pollution noise).score ∧
    (HealthService.calculate_health_impact pollution noise).score ≤ 100 ∧
    (80 ≤ (HealthService.calculate_health_impact pollution noise).score →
      (HealthService.calculate_health_impact pollution noise).risk_level = "Low") := by
  refine ⟨health_score_nonneg _ _ _ _, health_score_le_100 _ _ _ _, fun h => ?_⟩
  exact risk_level_low_of_ge_80 h

/-- C8 witness: the theorem applied at a concrete clean input. -/
theorem C8_health_score_range_and_low_risk_witness :
    0 ≤ (HealthService.calculate_health_impact ⟨0, 0, 0, 0⟩ ⟨0⟩).score ∧
    (HealthService.calculate_health_impact ⟨0, 0, 0, 0⟩ ⟨0⟩).score ≤ 100 ∧
    (80 ≤ (HealthService.calculate_health_impact ⟨0, 0, 0, 0⟩ ⟨0⟩).score →
      (HealthService.calculate_health_impact ⟨0, 0, 0, 0⟩ ⟨0⟩).risk_level = "Low") :=
  C8_health_score_range_and_low_risk ⟨0, 0, 0, 0⟩ ⟨0⟩

/-- C7 witness: calm conditions (wind 0.1 m/s) at 50 m downwind give the
box-model value. -/
theorem C7_gaussian_plume_calm_fallback_and_clamps_witness :
    PhysicsEngine._gaussian_plume 1 0.1 50 0 1.5 0.5 "D" = PhysicsEngine.box_model 1 :=
  (C7_gaussian_plume_calm_fallback_and_clamps 1 0.1 50 0 1.5 0.5 "D").1
    (Or.inr (by norm_num))

/-! ### C6: energy summation of two equal-level fleets -/

/-- C6: for `L > 0` and `N ≥ 1`, energy-summing the fleet level of one
vehicle at level `L` with the fleet level of `N` vehicles at level `L`
gives exactly `L + 10·log10(N+1)` over real arithmetic. -/
theorem C6_db_add_equal_fleets (L : ℝ) (N : ℤ) (hL : 0 < L) (hN : 1 ≤ N) :
    AcousticService._db_add
      [AcousticService._fleet_noise_level L 1, AcousticService._fleet_noise_level L N]
      = L + 10 * Real.logb 10 ((N : ℝ) + 1) := by
  have hNR : (1 : ℝ) ≤ (N : ℝ) := by exact_mod_cast hN
  have hNpos : (0 : ℝ) < (N : ℝ) := by linarith
  have hf1 : AcousticService._fleet_noise_level L 1 = L := by
    unfold AcousticService._fleet_noise_level
    rw [if_neg (by omega)]
    norm_num [Real.logb_one]
  have hfN : AcousticService._fleet_noise_level L N = L + 10 * Real.logb 10 (N : ℝ) := by
    unfold AcousticService._fleet_noise_level
    rw [if_neg (by omega)]
  have hlogN : 0 ≤ Real.logb 10 (N : ℝ) := Real.logb_nonneg (by norm_num) hNR
  have hLN : 0 < L + 10 * Real.logb 10 (N : ℝ) := by
    have := mul_nonneg (show (0 : ℝ) ≤ 10 by norm_num) hlogN
    linarith
  unfold AcousticService._db_add
  rw [hf1, hfN]
  rw [List.filter_eq_self.mpr ?side]
  case side =>
    intro a ha
    simp only [List.mem_cons, List.not_mem_nil, or_false] at ha
    rcases ha with rfl | rfl
    · exact decide_eq_true hL
    · exact decide_eq_true hLN
  simp only [List.map_cons, List.map_nil, List.sum_cons, List.sum_nil, add_zero]
  have hkey : (10 : ℝ) ^ ((L + 10 * Real.logb 10 (N : ℝ)) / 10)
      = (10 : ℝ) ^ (L / 10) * (N : ℝ) := by
    rw [show (L + 10 * Real.logb 10 (N : ℝ)) / 10 = L / 10 + Real.logb 10 (N : ℝ) by ring,
      Real.rpow_add (by norm_num),
      Real.rpow_logb (by norm_num) (by norm_num) hNpos]
  rw [hkey]
  have hbase : (0 : ℝ) < (10 : ℝ) ^ (L / 10) := Real.rpow_pos_of_pos (by norm_num) _
  have hsum : (10 : ℝ) ^ (L / 10) + (10 : ℝ) ^ (L / 10) * (N : ℝ)
      = (10 : ℝ) ^ (L / 10) * ((N : ℝ) + 1) := by ring
  rw [hsum]
  have hprodpos : 0 < (10 : ℝ) ^ (L / 10) * ((N : ℝ) + 1) :=
    mul_pos hbase (by linarith)
  rw [if_neg (by push_neg; exact hprodpos)]
  rw [Real.logb_mul (ne_of_gt hbase) (by linarith),
    Real.logb_rpow (by norm_num) (by norm_num)]
  ring

/-- C6 witness: the theorem applied at `L = 50`, `N = 1`. -/
theorem C6_db_add_equal_fleets_witness :
    AcousticService._db_add
      [AcousticService._fleet_noise_level 50 1, AcousticService._fleet_noise_level 50 1]
      = 50 + 10 * Real.logb 10 (((1 : ℤ) : ℝ) + 1) :=
  C6_db_add_equal_fleets 50 1 (by norm_num) (by norm_num)

/-! ### C3 / C9: forecast point invariants and totality -/

namespace ForecastService

theorem round1_clamped_fixed (x : ℝ) : round1 (max 1.0 (round1 x)) = max 1.0 (round1 x) := by
  rcases le_total (round1 x) 1.0 with h | h
  · rw [max_eq_left h, show (1.0 : ℝ) = ((1 : ℤ) : ℝ) by norm_num, round1_intCast]
  · rw [max_eq_right h, round1_round1]

theorem residual_std_nonneg (svc : State) (sensor_id : String) :
    0 ≤ _compute_residual_std svc sensor_id := by
  unfold _compute_residual_std
  rcases svc.history sensor_id with _ | history
  · norm_num
  · simp only
    split
    · norm_num
    · split
      · norm_num
      · exact le_trans (by norm_num) (le_max_left 1.0 _)

theorem hw_model_se_nonneg (svc : State) (sensor_id : String) (fc : List ℝ) (se : ℝ)
    (h : hw_model svc sensor_id = some (fc, se)) : 0 ≤ se := by
  simp only [hw_model] at h
  split at h
  · simp only [Option.some.injEq, Prod.mk.injEq] at h
    rcases h with ⟨-, rfl⟩
    split
    · norm_num
    · exact Real.sqrt_nonneg _
  · exact absurd h (by simp)

theorem point_estimate_se_nonneg (svc : State) (sensor_id : String)
    (level trend current_hour : ℝ) (minutes_ahead : ℤ) :
    0 ≤ (point_estimate (hw_model svc sensor_id) level trend
      (_compute_residual_std svc sensor_id) current_hour minutes_ahead).2 := by
  rcases hhw : hw_model svc sensor_id with _ | fcse
  · unfold point_estimate
    simp only
    exact residual_std_nonneg svc sensor_id
  · unfold point_estimate
    simp only
    exact hw_model_se_nonneg svc sensor_id fcse.1 fcse.2 (by rw [hhw])

theorem point_margin_nonneg (se : ℝ) (minutes_ahead : ℤ) (hse : 0 ≤ se) :
    0 ≤ point_margin se minutes_ahead :=
  mul_nonneg (mul_nonneg hse (by norm_num)) (Real.sqrt_nonneg _)

theorem mk_forecast_point_bracket (now_ts : ℝ) (minutes_ahead : ℤ) (pse : ℝ × ℝ)
    (jitter : ℝ) (hse : 0 ≤ pse.2) :
    0 ≤ (mk_forecast_point now_ts minutes_ahead pse jitter).predicted_pm25 ∧
    (mk_forecast_point now_ts minutes_ahead pse jitter).confidence_lower
      ≤ (mk_forecast_point now_ts minutes_ahead pse jitter).predicted_pm25 ∧
    (mk_forecast_point now_ts minutes_ahead pse jitter).predicted_pm25
      ≤ (mk_forecast_point now_ts minutes_ahead pse jitter).confidence_upper := by
  have hm := point_margin_nonneg pse.2 minutes_ahead hse
  unfold mk_forecast_point
  simp only
  refine ⟨le_trans (by norm_num) (le_max_left 1.0 _), max_le ?_ ?_, ?_⟩
  · exact le_trans (by norm_num) (le_max_left 1.0 _)
  · calc round1 (max 1.0 (round1 (pse.1 + jitter)) - point_margin pse.2 minutes_ahead)
        ≤ round1 (max 1.0 (round1 (pse.1 + jitter))) := round1_mono (by linarith)
      _ = max 1.0 (round1 (pse.1 + jitter)) := round1_clamped_fixed _
  · calc max 1.0 (round1 (pse.1 + jitter))
        = round1 (max 1.0 (round1 (pse.1 + jitter))) := (round1_clamped_fixed _).symm
      _ ≤ round1 (max 1.0 (round1 (pse.1 + jitter)) + point_margin pse.2 minutes_ahead) :=
        round1_mono (by linarith)

end ForecastService

/-- C3: every ForecastPoint returned by `generate_forecast` satisfies
`confidence_lower ≤ predicted_pm25 ≤ confidence_upper` and
`predicted_pm25 ≥ 0`, for every sensor id, state, arguments, wall-clock
inputs and jitter draws. -/
theorem C3_forecast_bounds_bracket_prediction (svc : ForecastService.State)
    (sensor_id : String) (hours_ahead interval_minutes : ℤ) (now_ts current_hour : ℝ)
    (rng : ℕ → ℝ) (pts : List ForecastService.ForecastPoint)
    (hok : ForecastService.generate_forecast svc sensor_id hours_ahead interval_minutes
      now_ts current_hour rng = .ok pts)
    (i : ℕ) (hi : i < pts.length) :
    0 ≤ (pts.getD i ⟨0, 0, 0, 0⟩).predicted_pm25 ∧
    (pts.getD i ⟨0, 0, 0, 0⟩).confidence_lower ≤ (pts.getD i ⟨0, 0, 0, 0⟩).predicted_pm25 ∧
    (pts.getD i ⟨0, 0, 0, 0⟩).predicted_pm25 ≤ (pts.getD i ⟨0, 0, 0, 0⟩).confidence_upper := by
  unfold ForecastService.generate_forecast at hok
  split at hok
  · exact absurd hok (by simp)
  · simp only [Except.ok.injEq] at hok
    subst hok
    rw [List.length_map, List.length_range] at hi
    rw [List.getD_eq_getElem?_getD, List.getElem?_map, List.getElem?_range hi]
    simp only [Option.map_some', Option.getD_some]
    exact ForecastService.mk_forecast_point_bracket _ _ _ _
      (ForecastService.point_estimate_se_nonneg svc sensor_id _ _ current_hour _)

/-- C3 witness: a fresh service, 6 hours ahead at 30-minute steps,
point 0 of the 12 returned points. -/
theorem C3_forecast_bounds_bracket_prediction_witness :
    0 ≤ (((ForecastService.generate_forecast ForecastService.emptyState "cam-001" 6 30 0 0
        (fun _ => 0)).toOption.getD []).getD 0 ⟨0, 0, 0, 0⟩).predicted_pm25 ∧
    (((ForecastService.generate_forecast ForecastService.emptyState "cam-001" 6 30 0 0
        (fun _ => 0)).toOption.getD []).getD 0 ⟨0, 0, 0, 0⟩).confidence_lower
      ≤ (((ForecastService.generate_forecast ForecastService.emptyState "cam-001" 6 30 0 0
        (fun _ => 0)).toOption.getD []).getD 0 ⟨0, 0, 0, 0⟩).predicted_pm25 ∧
    (((ForecastService.generate_forecast ForecastService.emptyState "cam-001" 6 30 0 0
        (fun _ => 0)).toOption.getD []).getD 0 ⟨0, 0, 0, 0⟩).predicted_pm25
      ≤ (((ForecastService.generate_forecast ForecastService.emptyState "cam-001" 6 30 0 0
        (fun _ => 0)).toOption.getD []).getD 0 ⟨0, 0, 0, 0⟩).confidence_upper :=
  C3_forecast_bounds_bracket_prediction ForecastService.emptyState "cam-001" 6 30 0 0
    (fun _ => 0) _ rfl 0
    (by rw [List.length_map, List.length_range]
        decide)

/-- C9 counterexample: at `interval_minutes = 0` the call raises
`ZeroDivisionError` (`(hours_ahead * 60) // interval_minutes`), so
`generate_forecast` does not return a list for every argument. -/
theorem C9_zero_interval_raises :
    ForecastService.generate_forecast ForecastService.emptyState "cam-001" 6 0 0 0
      (fun _ => 0) = .error "ZeroDivisionError" := by
  unfold ForecastService.generate_forecast
  rw [if_pos rfl]

/-- C9 (amended): for every state, sensor id, `hours_ahead` and every
nonzero `interval_minutes`, `generate_forecast` returns a list of
forecast points — there is no other failure point, and in particular
the seasonal Holt-Winters computation cannot fail in the real-number
idealisation (its `try/except` guard is dead code), so the fallback
regime is only entered through the data-sufficiency test. -/
theorem C9_amended_no_failure_for_nonzero_interval (svc : ForecastService.State)
    (sensor_id : String) (hours_ahead interval_minutes : ℤ) (now_ts current_hour : ℝ)
    (rng : ℕ → ℝ) (h : interval_minutes ≠ 0) :
    ∃ pts, ForecastService.generate_forecast svc sensor_id hours_ahead interval_minutes
      now_ts current_hour rng = .ok pts := by
  unfold ForecastService.generate_forecast
  rw [if_neg h]
  exact ⟨_, rfl⟩

/-- C9 witness: the amended theorem applied at a fresh service with a
30-minute interval. -/
theorem C9_amended_no_failure_witness :
    ∃ pts, ForecastService.generate_forecast ForecastService.emptyState "cam-001" 6 30 0 0
      (fun _ => 0) = .ok pts :=
  C9_amended_no_failure_for_nonzero_interval ForecastService.emptyState "cam-001" 6 30 0 0
    (fun _ => 0) (by decide)

/-! ### The `ℚ → ℝ` transport of the Holt-Winters core: the polymorphic
`_holt_winters` commutes with the cast, so concrete seasonal runs can be
evaluated exactly over `ℚ`. -/

namespace ForecastService

theorem getD_map_cast (l : List ℚ) (n : ℕ) :
    (l.map fun (q : ℚ) => (q : ℝ)).getD n 0 = ((l.getD n 0 : ℚ) : ℝ) := by
  rw [List.getD_eq_getElem?_getD, List.getElem?_map, List.getD_eq_getElem?_getD]
  cases h : l[n]? <;> simp

theorem getLast_map_cast (l : List ℚ) :
    ((l.map fun (q : ℚ) => (q : ℝ)).getLast?).getD 0 = ((l.getLast?.getD 0 : ℚ) : ℝ) := by
  rw [List.getLast?_map]
  cases h : l.getLast? <;> simp

theorem sum_map_cast (l : List ℚ) :
    (l.map fun (q : ℚ) => (q : ℝ)).sum = ((l.sum : ℚ) : ℝ) := by
  induction l with
  | nil => simp
  | cons x t ih => simp only [List.map_cons, List.sum_cons, ih, Rat.cast_add]

theorem hw_step_cast (a b g : ℚ) (data : List ℚ) (m : ℕ)
    (st : List ℚ × List ℚ × List ℚ × List ℚ) (t : ℕ) :
    hw_step ((a : ℝ)) ((b : ℝ)) ((g : ℝ)) (data.map fun (q : ℚ) => (q : ℝ)) m
      (st.1.map (fun (q : ℚ) => (q : ℝ)), st.2.1.map (fun (q : ℚ) => (q : ℝ)),
       st.2.2.1.map (fun (q : ℚ) => (q : ℝ)), st.2.2.2.map (fun (q : ℚ) => (q : ℝ))) t
      = ((hw_step a b g data m st t).1.map (fun (q : ℚ) => (q : ℝ)),
         (hw_step a b g data m st t).2.1.map (fun (q : ℚ) => (q : ℝ)),
         (hw_step a b g data m st t).2.2.1.map (fun (q : ℚ) => (q : ℝ)),
         (hw_step a b g data m st t).2.2.2.map (fun (q : ℚ) => (q : ℝ))) := by
  unfold hw_step
  simp only [List.map_append, List.map_cons, List.map_nil, getD_map_cast, getLast_map_cast]
  refine Prod.ext ?_ (Prod.ext ?_ (Prod.ext ?_ ?_)) <;>
    · simp only [List.append_cancel_left_eq, List.cons.injEq, and_true]
      push_cast
      ring

theorem hw_fold_cast (a b g : ℚ) (data : List ℚ) (m : ℕ) (idxs : List ℕ)
    (st : List ℚ × List ℚ × List ℚ × List ℚ) :
    idxs.foldl (hw_step ((a : ℝ)) ((b : ℝ)) ((g : ℝ)) (data.map fun (q : ℚ) => (q : ℝ)) m)
      (st.1.map (fun (q : ℚ) => (q : ℝ)), st.2.1.map (fun (q : ℚ) => (q : ℝ)),
       st.2.2.1.map (fun (q : ℚ) => (q : ℝ)), st.2.2.2.map (fun (q : ℚ) => (q : ℝ)))
      = ((idxs.foldl (hw_step a b g data m) st).1.map (fun (q : ℚ) => (q : ℝ)),
         (idxs.foldl (hw_step a b g data m) st).2.1.map (fun (q : ℚ) => (q : ℝ)),
         (idxs.foldl (hw_step a b g data m) st).2.2.1.map (fun (q : ℚ) => (q : ℝ)),
         (idxs.foldl (hw_step a b g data m) st).2.2.2.map (fun (q : ℚ) => (q : ℝ))) := by
  induction idxs generalizing st with
  | nil => rfl
  | cons t ts ih =>
    simp only [List.foldl_cons]
    rw [hw_step_cast]
    exact ih _

theorem holt_winters_cast (data : List ℚ) (m : ℕ) (a b g : ℚ) :
    _holt_winters (data.map fun (q : ℚ) => (q : ℝ)) m ((a : ℝ)) ((b : ℝ)) ((g : ℝ))
      = ((_holt_winters data m a b g).1.map (fun (q : ℚ) => (q : ℝ)),
         (_holt_winters data m a b g).2.map (fun (q : ℚ) => (q : ℝ))) := by
  unfold _holt_winters
  simp only [List.length_map]
  have hlevel : ((data.map fun (q : ℚ) => (q : ℝ)).take m).sum / (m : ℝ)
      = (((data.take m).sum / (m : ℚ) : ℚ) : ℝ) := by
    rw [← List.map_take, sum_map_cast]
    push_cast
    ring
  have htrend :
      (if 2 * m ≤ data.length then
        ((List.range m).map fun i =>
          ((((data.map fun (q : ℚ) => (q : ℝ)).drop m).take m).getD i 0
            - ((data.map fun (q : ℚ) => (q : ℝ)).take m).getD i 0) / (m : ℝ)).sum / (m : ℝ)
      else 0)
      = (((if 2 * m ≤ data.length then
          ((List.range m).map fun i =>
            (((data.drop m).take m).getD i 0 - (data.take m).getD i 0) / (m : ℚ)).sum / (m : ℚ)
        else 0 : ℚ)) : ℝ) := by
    split
    · rw [← List.map_take, ← List.map_drop, ← List.map_take]
      have hmap : ((List.range m).map fun i =>
          ((((data.drop m).take m).map fun (q : ℚ) => (q : ℝ)).getD i 0
            - (((data.take m)).map fun (q : ℚ) => (q : ℝ)).getD i 0) / (m : ℝ))
          = ((List.range m).map fun i =>
            ((((data.drop m).take m).getD i 0 - (data.take m).getD i 0) / (m : ℚ) : ℚ)).map
              (fun (q : ℚ) => (q : ℝ)) := by
        rw [List.map_map]
        apply List.map_congr_left
        intro i _
        simp only [Function.comp]
        rw [getD_map_cast, getD_map_cast]
        push_cast
        ring
      rw [hmap, sum_map_cast]
      push_cast
      ring
    · norm_num
  have hseasonal : ((List.range m).map fun i =>
        (data.map fun (q : ℚ) => (q : ℝ)).getD i 0
          - ((data.map fun (q : ℚ) => (q : ℝ)).take m).sum / (m : ℝ))
      = ((List.range m).map fun i =>
          (data.getD i 0 - (data.take m).sum / (m : ℚ) : ℚ)).map (fun (q : ℚ) => (q : ℝ)) := by
    rw [List.map_map]
    apply List.map_congr_left
    intro i _
    simp only [Function.comp]
    rw [getD_map_cast, hlevel]
    push_cast
    ring
  rw [hseasonal, htrend, hlevel]
  have hfold := hw_fold_cast a b g data m (List.range' m (data.length - m))
    ([(data.take m).sum / (m : ℚ)],
     [if 2 * m ≤ data.length then
        ((List.range m).map fun i =>
          (((data.drop m).take m).getD i 0 - (data.take m).getD i 0) / (m : ℚ)).sum / (m : ℚ)
      else 0],
     (List.range m).map fun i => data.getD i 0 - (data.take m).sum / (m : ℚ), [])
  simp only [List.map_cons, List.map_nil] at hfold
  rw [hfold]
  simp only [List.length_map]
  refine Prod.ext ?_ ?_
  · simp only
    rw [List.map_map]
    apply List.map_congr_left
    intro h _
    simp only [Function.comp]
    rw [getLast_map_cast, getLast_map_cast, getD_map_cast]
    simp only [Rat.cast_add, Rat.cast_mul, Rat.cast_natCast, Rat.cast_intCast,
      Rat.cast_zero, apply_ite (fun (q : ℚ) => (q : ℝ))]
  · rfl

/-! ### C4: evaluating one concrete `generate_forecast` call exactly.
The service state is built through `add_reading` only; the Holt-Winters
run, the standard error and the interval bounds of the returned points
are then computed in closed form. -/

set_option maxHeartbeats 4000000 in
theorem c4_fold :
    (List.range' 24 24).foldl (hw_step (0.3 : ℝ) 0.1 0.2 c4values 24)
      ([113541/368], [(-293/46)],
       [(-128609/1840), (-335481/1840), 4219/368, 4219/368, 4219/368, 4219/368, 4219/368, 
       4219/368, 4219/368, 4219/368, 4219/368, 4219/368, 4219/368, 4219/368, 4219/368, 
       4219/368, 4219/368, 4219/368, 4219/368, 4219/368, 4219/368, 4219/368, 4219/368, 
       4219/368], [])
    = ([113541/368, 110093/368, 532673/1840, 514329/1840, 495433/1840, 4139/16, 91197/368, 
       435433/1840, 414329/1840, 392673/1840, 74093/368, 69541/368, 324393/1840, 
       300529/1840, 276113/1840, 50229/368, 45125/368, 199553/1840, 172929/1840, 
       145753/1840, 23605/368, 17949/368, 60913/1840, 31529/1840, 1593/1840],
       [(-293/46), (-767/115), (-1603/230), (-836/115), (-1741/230), (-181/23), (-1879/230), 
       (-974/115), (-2017/230), (-1043/115), (-431/46), (-1112/115), (-2293/230), 
       (-1181/115), (-2431/230), (-250/23), (-2569/230), (-1319/115), (-2707/230), 
       (-1388/115), (-569/46), (-1457/115), (-2983/230), (-1526/115), (-3121/230)],
       [(-128609/1840), (-335481/1840), 4219/368, 4219/368, 4219/368, 4219/368, 4219/368, 
       4219/368, 4219/368, 4219/368, 4219/368, 4219/368, 4219/368, 4219/368, 4219/368, 
       4219/368, 4219/368, 4219/368, 4219/368, 4219/368, 4219/368, 4219/368, 4219/368, 
       4219/368, (-26237/368), (-338057/1840), 18519/1840, 18519/1840, 18519/1840, 
       18519/1840, 18519/1840, 18519/1840, 18519/1840, 18519/1840, 18519/1840, 
       18519/1840, 18519/1840, 18519/1840, 18519/1840, 18519/1840, 18519/1840, 
       18519/1840, 18519/1840, 18519/1840, 18519/1840, 18519/1840, 18519/1840, 
       18519/1840],
       [(-10), (-10), (-10), (-10), (-10), (-10), (-10), (-10), (-10), (-10), (-10), (-10), 
       (-10), (-10), (-10), (-10), (-10), (-10), (-10), (-10), (-10), (-10), (-10), 
       (-10)]) := by
  have hr1 : List.range' 24 24 = [24, 25, 26, 27, 28, 29, 30, 31, 32, 33, 34, 35,
      36, 37, 38, 39, 40, 41, 42, 43, 44, 45, 46, 47] := by decide
  rw [hr1]
  norm_num [hw_step, c4values, List.getD_cons_zero, List.getD_cons_succ,
    List.getLast?_cons_cons, List.foldl_cons]

set_option maxHeartbeats 4000000 in
theorem c4_holt_eval :
    _holt_winters c4values 24 (0.3 : ℝ) 0.1 0.2
    = ([(-84), (-210), (-6849/230), (-997/23), (-13091/230), (-8106/115), (-19333/230), 
       (-11227/115), (-5115/46), (-14348/115), (-31817/230), (-17469/115), 
       (-38059/230), (-4118/23), (-44301/230), (-23711/115), (-50543/230), 
       (-26832/115), (-11357/46), (-29953/115), (-63027/230), (-1438/5), (-69269/230), 
       (-7239/23)],
       [(-10), (-10), (-10), (-10), (-10), (-10), (-10), (-10), (-10), (-10), (-10), (-10), 
       (-10), (-10), (-10), (-10), (-10), (-10), (-10), (-10), (-10), (-10), (-10), 
       (-10)]) := by
  have hlen : c4values.length = 48 := by norm_num [c4values]
  have hlevel : (c4values.take 24).sum / ((24 : ℕ) : ℝ) = 113541/368 := by
    norm_num [c4values]
  have hseasonal : ((List.range 24).map fun i => c4values.getD i 0 - (113541/368 : ℝ))
      = [(-128609/1840), (-335481/1840), 4219/368, 4219/368, 4219/368, 4219/368, 4219/368, 
       4219/368, 4219/368, 4219/368, 4219/368, 4219/368, 4219/368, 4219/368, 4219/368, 
       4219/368, 4219/368, 4219/368, 4219/368, 4219/368, 4219/368, 4219/368, 4219/368, 
       4219/368] := by
    have hr2 : List.range 24 = [0, 1, 2, 3, 4, 5, 6, 7, 8, 9, 10, 11, 12, 13, 14,
        15, 16, 17, 18, 19, 20, 21, 22, 23] := by decide
    rw [hr2]
    norm_num [c4values]
  have htrend : (if 2 * 24 ≤ 48 then
        ((List.range 24).map fun i =>
          (((c4values.drop 24).take 24).getD i 0 - (c4values.take 24).getD i 0)
            / ((24 : ℕ) : ℝ)).sum / ((24 : ℕ) : ℝ)
      else 0) = ((-293/46) : ℝ) := by
    have hr2 : List.range 24 = [0, 1, 2, 3, 4, 5, 6, 7, 8, 9, 10, 11, 12, 13, 14,
        15, 16, 17, 18, 19, 20, 21, 22, 23] := by decide
    rw [if_pos (by norm_num), hr2]
    norm_num [c4values]
  unfold _holt_winters
  simp only
  rw [hlen, hlevel, hseasonal, htrend, show (48 - 24 : ℕ) = 24 from rfl, c4_fold]
  have hr3 : List.range' 1 24 = [1, 2, 3, 4, 5, 6, 7, 8, 9, 10, 11, 12, 13, 14,
      15, 16, 17, 18, 19, 20, 21, 22, 23, 24] := by decide
  rw [hr3]
  norm_num [List.getD_cons_zero, List.getD_cons_succ, List.getLast?_cons_cons]
  simp only [Int.reduceToNat]
  norm_num [List.getElem_cons_succ, List.getElem_cons_zero, List.getD_cons_succ,
    List.getD_cons_zero]

set_option maxHeartbeats 1000000 in
theorem const_fold :
    (List.range' 24 24).foldl (hw_step (0.3 : ℝ) 0.1 0.2 (List.replicate 48 (50 : ℝ)) 24)
      ([50], [0],
       [0, 0, 0, 0, 0, 0, 0, 0, 0, 0, 0, 0, 0, 0, 0, 0, 0, 0, 0, 0, 0, 0, 0, 0], [])
    = ([50, 50, 50, 50, 50, 50, 50, 50, 50, 50, 50, 50, 50, 50, 50, 50, 50, 50, 50, 50, 50, 
       50, 50, 50, 50],
       [0, 0, 0, 0, 0, 0, 0, 0, 0, 0, 0, 0, 0, 0, 0, 0, 0, 0, 0, 0, 0, 0, 0, 0, 0],
       [0, 0, 0, 0, 0, 0, 0, 0, 0, 0, 0, 0, 0, 0, 0, 0, 0, 0, 0, 0, 0, 0, 0, 0, 0, 0, 0, 0, 0, 
       0, 0, 0, 0, 0, 0, 0, 0, 0, 0, 0, 0, 0, 0, 0, 0, 0, 0, 0],
       [0, 0, 0, 0, 0, 0, 0, 0, 0, 0, 0, 0, 0, 0, 0, 0, 0, 0, 0, 0, 0, 0, 0, 0]) := by
  have hr1 : List.range' 24 24 = [24, 25, 26, 27, 28, 29, 30, 31, 32, 33, 34, 35,
      36, 37, 38, 39, 40, 41, 42, 43, 44, 45, 46, 47] := by decide
  have hrep : List.replicate 48 (50 : ℝ) = [50, 50, 50, 50, 50, 50, 50, 50, 50, 50,
      50, 50, 50, 50, 50, 50, 50, 50, 50, 50, 50, 50, 50, 50, 50, 50, 50, 50, 50, 50,
      50, 50, 50, 50, 50, 50, 50, 50, 50, 50, 50, 50, 50, 50, 50, 50, 50, 50] := rfl
  rw [hr1, hrep]
  norm_num [hw_step, List.getD_cons_zero, List.getD_cons_succ,
    List.getLast?_cons_cons, List.foldl_cons]

set_option maxHeartbeats 1000000 in
theorem const_holt_eval :
    _holt_winters (List.replicate 48 (50 : ℝ)) 24 (0.3 : ℝ) 0.1 0.2
    = ([50, 50, 50, 50, 50, 50, 50, 50, 50, 50, 50, 50, 50, 50, 50, 50, 50, 50, 50, 50, 50, 
       50, 50, 50],
       [0, 0, 0, 0, 0, 0, 0, 0, 0, 0, 0, 0, 0, 0, 0, 0, 0, 0, 0, 0, 0, 0, 0, 0]) := by
  have hrep : List.replicate 48 (50 : ℝ) = [50, 50, 50, 50, 50, 50, 50, 50, 50, 50,
      50, 50, 50, 50, 50, 50, 50, 50, 50, 50, 50, 50, 50, 50, 50, 50, 50, 50, 50, 50,
      50, 50, 50, 50, 50, 50, 50, 50, 50, 50, 50, 50, 50, 50, 50, 50, 50, 50] := rfl
  have hlen : (List.replicate 48 (50 : ℝ)).length = 48 := by rw [hrep]; norm_num
  have hlevel : ((List.replicate 48 (50 : ℝ)).take 24).sum / ((24 : ℕ) : ℝ) = 50 := by
    rw [hrep]; norm_num
  have hseasonal : ((List.range 24).map fun i =>
        (List.replicate 48 (50 : ℝ)).getD i 0 - (50 : ℝ))
      = [0, 0, 0, 0, 0, 0, 0, 0, 0, 0, 0, 0, 0, 0, 0, 0, 0, 0, 0, 0, 0, 0, 0, 0] := by
    have hr2 : List.range 24 = [0, 1, 2, 3, 4, 5, 6, 7, 8, 9, 10, 11, 12, 13, 14,
        15, 16, 17, 18, 19, 20, 21, 22, 23] := by decide
    rw [hrep, hr2]
    norm_num
  have htrend : (if 2 * 24 ≤ 48 then
        ((List.range 24).map fun i =>
          ((((List.replicate 48 (50 : ℝ)).drop 24).take 24).getD i 0
            - ((List.replicate 48 (50 : ℝ)).take 24).getD i 0)
            / ((24 : ℕ) : ℝ)).sum / ((24 : ℕ) : ℝ)
      else 0) = (0 : ℝ) := by
    have hr2 : List.range 24 = [0, 1, 2, 3, 4, 5, 6, 7, 8, 9, 10, 11, 12, 13, 14,
        15, 16, 17, 18, 19, 20, 21, 22, 23] := by decide
    rw [if_pos (by norm_num), hrep, hr2]
    norm_num
  unfold _holt_winters
  simp only
  rw [hlen, hlevel, hseasonal, htrend, show (48 - 24 : ℕ) = 24 from rfl, const_fold]
  have hr3 : List.range' 1 24 = [1, 2, 3, 4, 5, 6, 7, 8, 9, 10, 11, 12, 13, 14,
      15, 16, 17, 18, 19, 20, 21, 22, 23, 24] := by decide
  rw [hr3]
  norm_num [List.getD_cons_zero, List.getD_cons_succ, List.getLast?_cons_cons]
  simp only [Int.reduceToNat]
  norm_num [List.getElem_cons_succ, List.getElem_cons_zero, List.getD_cons_succ,
    List.getD_cons_zero]

theorem add_reading_params (svc : State) (sid : String) (t p : ℝ) :
    (add_reading svc sid t p).alpha = svc.alpha ∧
    (add_reading svc sid t p).beta = svc.beta ∧
    (add_reading svc sid t p).gamma = svc.gamma := by
  unfold add_reading
  rcases hh : svc.hourly_history sid with _ | cur <;> simp [hh]

theorem feed_params (sid : String) (ps : List (ℝ × ℝ)) (svc : State) :
    (feed svc sid ps).alpha = svc.alpha ∧
    (feed svc sid ps).beta = svc.beta ∧
    (feed svc sid ps).gamma = svc.gamma := by
  induction ps generalizing svc with
  | nil => exact ⟨rfl, rfl, rfl⟩
  | cons q qs ih =>
    have h1 := add_reading_params svc sid q.1 q.2
    have h2 := ih (add_reading svc sid q.1 q.2)
    simp only [feed, List.foldl_cons] at h2 ⊢
    exact ⟨h2.1.trans h1.1, h2.2.1.trans h1.2.1, h2.2.2.trans h1.2.2⟩

theorem add_reading_hourly_some (svc : State) (sid : String) (t p : ℝ)
    (cur : List (ℝ × ℝ)) (hcur : svc.hourly_history sid = some cur)
    (hlen : cur.length + 1 ≤ 72) :
    (add_reading svc sid t p).hourly_history sid = some (cur ++ [(t, p)]) := by
  unfold add_reading
  simp only [hcur, Option.getD_some]
  rw [if_pos trivial,
    if_neg (by simp only [List.length_append, List.length_cons, List.length_nil]; omega)]

theorem feed_hourly_history (sid : String) (ps : List (ℝ × ℝ)) (svc : State)
    (cur : List (ℝ × ℝ)) (hcur : svc.hourly_history sid = some cur)
    (hlen : cur.length + ps.length ≤ 72) :
    (feed svc sid ps).hourly_history sid = some (cur ++ ps) := by
  induction ps generalizing svc cur with
  | nil => simpa [feed] using hcur
  | cons q qs ih =>
    have hstep := add_reading_hourly_some svc sid q.1 q.2 cur hcur
      (by simp only [List.length_cons] at hlen; omega)
    have hrest := ih (add_reading svc sid q.1 q.2) (cur ++ [(q.1, q.2)]) hstep
      (by simp only [List.length_append, List.length_cons, List.length_nil] at hlen ⊢
          omega)
    simp only [feed, List.foldl_cons] at hrest ⊢
    rw [hrest, List.append_assoc]
    simp

theorem feed_empty_hourly (sid : String) (ps : List (ℝ × ℝ)) (hne : ps ≠ [])
    (hlen : ps.length ≤ 72) :
    (feed emptyState sid ps).hourly_history sid = some ps := by
  cases ps with
  | nil => exact absurd rfl hne
  | cons q qs =>
    have h1 : (add_reading emptyState sid q.1 q.2).hourly_history sid
        = some [(q.1, q.2)] := by
      unfold add_reading emptyState
      simp
    have hrest := feed_hourly_history sid qs (add_reading emptyState sid q.1 q.2)
      [(q.1, q.2)] h1
      (by simp only [List.length_cons, List.length_nil] at hlen ⊢; omega)
    simp only [feed, List.foldl_cons] at hrest ⊢
    simpa using hrest

theorem c4values_length : c4values.length = 48 := by norm_num [c4values]

theorem c4pairs_ne : c4pairs ≠ [] := by
  intro h
  have hl := congrArg List.length h
  simp only [c4pairs, List.length_map, c4values_length, List.length_nil] at hl
  exact absurd hl (by norm_num)

theorem c4state_hourly : c4state.hourly_history "cam-001" = some c4pairs := by
  unfold c4state
  exact feed_empty_hourly "cam-001" c4pairs c4pairs_ne
    (by simp only [c4pairs, List.length_map, c4values_length]; norm_num)

theorem c4pairs_snd : c4pairs.map Prod.snd = c4values := by
  simp [c4pairs, List.map_map, Function.comp]

theorem c4state_alpha : c4state.alpha = 0.3 := (feed_params "cam-001" c4pairs emptyState).1

theorem c4state_beta : c4state.beta = 0.1 := (feed_params "cam-001" c4pairs emptyState).2.1

theorem c4state_gamma : c4state.gamma = 0.2 :=
  (feed_params "cam-001" c4pairs emptyState).2.2

theorem constPairs_ne : constPairs ≠ [] := by
  intro h
  have hl := congrArg List.length h
  simp only [constPairs, List.length_replicate, List.length_nil] at hl
  exact absurd hl (by norm_num)

theorem constState_hourly : constState.hourly_history "cam-001" = some constPairs := by
  unfold constState
  exact feed_empty_hourly "cam-001" constPairs constPairs_ne
    (by simp only [constPairs, List.length_replicate]; norm_num)

theorem constPairs_snd : constPairs.map Prod.snd = List.replicate 48 (50 : ℝ) := by
  simp [constPairs, List.map_replicate]

theorem constState_alpha : constState.alpha = 0.3 :=
  (feed_params "cam-001" constPairs emptyState).1

theorem constState_beta : constState.beta = 0.1 :=
  (feed_params "cam-001" constPairs emptyState).2.1

theorem constState_gamma : constState.gamma = 0.2 :=
  (feed_params "cam-001" constPairs emptyState).2.2

theorem c4_hw_model :
    hw_model c4state "cam-001"
    = some (([(-84), (-210), (-6849/230), (-997/23), (-13091/230), (-8106/115), (-19333/230),
       (-11227/115), (-5115/46), (-14348/115), (-31817/230), (-17469/115),
       (-38059/230), (-4118/23), (-44301/230), (-23711/115), (-50543/230),
       (-26832/115), (-11357/46), (-29953/115), (-63027/230), (-1438/5), (-69269/230),
       (-7239/23)] : List ℝ), 10) := by
  unfold hw_model
  rw [c4state_hourly]
  simp only [Option.getD_some, c4pairs_snd, c4values_length]
  rw [if_pos (by norm_num), c4state_alpha, c4state_beta, c4state_gamma, c4_holt_eval]
  norm_num [Option.some.injEq, Prod.mk.injEq, List.isEmpty_cons]
  rw [show (100 : ℝ) = 10 ^ 2 by norm_num]
  exact Real.sqrt_sq (by norm_num)

theorem const_hw_model :
    hw_model constState "cam-001"
    = some (([50, 50, 50, 50, 50, 50, 50, 50, 50, 50, 50, 50, 50, 50, 50, 50, 50, 50, 50, 50, 50,
       50, 50, 50] : List ℝ), 0) := by
  unfold hw_model
  rw [constState_hourly]
  simp only [Option.getD_some, constPairs_snd, List.length_replicate]
  rw [if_pos (by norm_num), constState_alpha, constState_beta, constState_gamma,
    const_holt_eval]
  norm_num [Option.some.injEq, Prod.mk.injEq, List.isEmpty_cons]

theorem c4_point_estimate_10 (L T R ch : ℝ) :
    point_estimate (hw_model c4state "cam-001") L T R ch 10 = (21, 10) := by
  rw [c4_hw_model]
  unfold point_estimate
  simp only
  rw [show ⌊((10 : ℤ) : ℝ) / 60.0 - 1⌋ = -1 from by
    rw [Int.floor_eq_iff]
    constructor <;> norm_num]
  norm_num [List.getD_cons_zero, List.getD_cons_succ]

theorem c4_point_estimate_20 (L T R ch : ℝ) :
    point_estimate (hw_model c4state "cam-001") L T R ch 20 = (0, 10) := by
  rw [c4_hw_model]
  unfold point_estimate
  simp only
  rw [show ⌊((20 : ℤ) : ℝ) / 60.0 - 1⌋ = -1 from by
    rw [Int.floor_eq_iff]
    constructor <;> norm_num]
  norm_num [List.getD_cons_zero, List.getD_cons_succ]

theorem const_point_estimate_20 (L T R ch : ℝ) :
    point_estimate (hw_model constState "cam-001") L T R ch 20 = (50, 0) := by
  rw [const_hw_model]
  unfold point_estimate
  simp only
  rw [show ⌊((20 : ℤ) : ℝ) / 60.0 - 1⌋ = -1 from by
    rw [Int.floor_eq_iff]
    constructor <;> norm_num]
  norm_num [List.getD_cons_zero, List.getD_cons_succ]

theorem round1_eval (x : ℝ) (n : ℤ) (h10 : 10 * x = (n : ℝ)) : round1 x = (n : ℝ) / 10 := by
  unfold round1
  rw [h10, pyround_intCast]

theorem c4_width_10 (L T R ch : ℝ) :
    (mk_forecast_point 0 10 (point_estimate (hw_model c4state "cam-001") L T R ch 10)
        0).confidence_upper
      - (mk_forecast_point 0 10 (point_estimate (hw_model c4state "cam-001") L T R ch 10)
        0).confidence_lower = 39.2 := by
  rw [c4_point_estimate_10]
  unfold mk_forecast_point point_margin
  simp only
  rw [show (max 1.0 (((10 : ℤ) : ℝ) / 30.0)) = 1 from by
    rw [max_eq_left (by norm_num)]
    norm_num]
  rw [Real.sqrt_one, show ((21 : ℝ) + 0) = 21 from by norm_num,
    round1_eval (21 : ℝ) 210 (by norm_num),
    show (((210 : ℤ) : ℝ)) / 10 = 21 from by norm_num,
    max_eq_right (by norm_num : (1.0 : ℝ) ≤ 21),
    show ((21 : ℝ) + 10 * 1.96 * 1) = 40.6 from by norm_num,
    round1_eval (40.6 : ℝ) 406 (by norm_num),
    show ((21 : ℝ) - 10 * 1.96 * 1) = 1.4 from by norm_num,
    round1_eval (1.4 : ℝ) 14 (by norm_num),
    max_eq_right (by norm_num : (0.0 : ℝ) ≤ ((14 : ℤ) : ℝ) / 10)]
  norm_num

theorem c4_width_20 (L T R ch : ℝ) :
    (mk_forecast_point 0 20 (point_estimate (hw_model c4state "cam-001") L T R ch 20)
        0).confidence_upper
      - (mk_forecast_point 0 20 (point_estimate (hw_model c4state "cam-001") L T R ch 20)
        0).confidence_lower = 20.6 := by
  rw [c4_point_estimate_20]
  unfold mk_forecast_point point_margin
  simp only
  rw [show (max 1.0 (((20 : ℤ) : ℝ) / 30.0)) = 1 from by
    rw [max_eq_left (by norm_num)]
    norm_num]
  rw [Real.sqrt_one, show ((0 : ℝ) + 0) = 0 from by norm_num,
    round1_eval (0 : ℝ) 0 (by norm_num),
    show (((0 : ℤ) : ℝ)) / 10 = 0 from by norm_num,
    max_eq_left (by norm_num : (0 : ℝ) ≤ 1.0),
    show ((1.0 : ℝ) + 10 * 1.96 * 1) = 20.6 from by norm_num,
    round1_eval (20.6 : ℝ) 206 (by norm_num),
    show ((1.0 : ℝ) - 10 * 1.96 * 1) = -18.6 from by norm_num,
    round1_eval (-18.6 : ℝ) (-186) (by norm_num),
    max_eq_left (by norm_num : (((-186 : ℤ) : ℝ) / 10) ≤ 0.0)]
  norm_num

theorem point_estimate_se (svc : State) (sensor_id : String) (L T ch : ℝ) (mins : ℤ) :
    (point_estimate (hw_model svc sensor_id) L T (_compute_residual_std svc sensor_id)
      ch mins).2 = forecast_se svc sensor_id := by
  unfold point_estimate forecast_se
  rcases hh : hw_model svc sensor_id with _ | fcse <;> simp

theorem forecast_se_nonneg (svc : State) (sensor_id : String) :
    0 ≤ forecast_se svc sensor_id := by
  unfold forecast_se
  rcases hh : hw_model svc sensor_id with _ | fcse
  · exact residual_std_nonneg svc sensor_id
  · exact hw_model_se_nonneg svc sensor_id fcse.1 fcse.2 (by rw [hh])

theorem point_margin_mono {se : ℝ} (hse : 0 ≤ se) {m1 m2 : ℤ} (hm : m1 ≤ m2) :
    point_margin se m1 ≤ point_margin se m2 := by
  unfold point_margin
  have hc : (m1 : ℝ) ≤ (m2 : ℝ) := by exact_mod_cast hm
  have hmax : max 1.0 ((m1 : ℝ) / 30.0) ≤ max 1.0 ((m2 : ℝ) / 30.0) :=
    max_le_max (le_refl _) (by linarith)
  exact mul_le_mul_of_nonneg_left (Real.sqrt_le_sqrt hmax)
    (mul_nonneg hse (by norm_num))

theorem mk_width_le (now_ts : ℝ) (mins : ℤ) (pse : ℝ × ℝ) (jitter : ℝ) :
    (mk_forecast_point now_ts mins pse jitter).confidence_upper
      - (mk_forecast_point now_ts mins pse jitter).confidence_lower
      ≤ 2 * point_margin pse.2 mins + 1 / 10 := by
  unfold mk_forecast_point
  simp only
  have h1 := round1_le (max 1.0 (round1 (pse.1 + jitter)) + point_margin pse.2 mins)
  have h2 := le_round1 (max 1.0 (round1 (pse.1 + jitter)) - point_margin pse.2 mins)
  have h3 : round1 (max 1.0 (round1 (pse.1 + jitter)) - point_margin pse.2 mins)
      ≤ max 0.0 (round1 (max 1.0 (round1 (pse.1 + jitter)) - point_margin pse.2 mins)) :=
    le_max_right _ _
  linarith

theorem mk_width_ge (now_ts : ℝ) (mins : ℤ) (pse : ℝ × ℝ) (jitter : ℝ)
    (hnc : 0 ≤ round1 ((mk_forecast_point now_ts mins pse jitter).predicted_pm25
      - point_margin pse.2 mins)) :
    2 * point_margin pse.2 mins - 1 / 10
      ≤ (mk_forecast_point now_ts mins pse jitter).confidence_upper
        - (mk_forecast_point now_ts mins pse jitter).confidence_lower := by
  unfold mk_forecast_point at hnc ⊢
  simp only at hnc ⊢
  rw [show (0.0 : ℝ) = 0 from by norm_num, max_eq_right hnc]
  have h1 := le_round1 (max 1.0 (round1 (pse.1 + jitter)) + point_margin pse.2 mins)
  have h2 := round1_le (max 1.0 (round1 (pse.1 + jitter)) - point_margin pse.2 mins)
  linarith

theorem const_forecast_se : forecast_se constState "cam-001" = 0 := by
  unfold forecast_se
  rw [const_hw_model]

theorem const_margin (mins : ℤ) : point_margin 0 mins = 0 := by
  unfold point_margin
  rw [zero_mul, zero_mul]

theorem const_noclamp :
    0 ≤ round1 ((((generate_forecast constState "cam-001" 1 10 0 0
        (fun _ => 0)).toOption.getD []).getD 1 ⟨0, 0, 0, 0⟩).predicted_pm25
      - point_margin (forecast_se constState "cam-001") ((((1 : ℕ) : ℤ) + 1) * 10)) := by
  rw [const_forecast_se, const_margin]
  show 0 ≤ round1 ((mk_forecast_point 0 20 (point_estimate (hw_model constState "cam-001")
      ((constState.level "cam-001").getD 15.0) ((constState.trend "cam-001").getD 0.0)
      (_compute_residual_std constState "cam-001") 0 20) 0).predicted_pm25 - 0)
  rw [const_point_estimate_20]
  unfold mk_forecast_point
  simp only
  rw [show ((50 : ℝ) + 0) = 50 from by norm_num,
    round1_eval (50 : ℝ) 500 (by norm_num),
    show (((500 : ℤ) : ℝ)) / 10 = 50 from by norm_num,
    max_eq_right (by norm_num : (1.0 : ℝ) ≤ 50),
    show ((50 : ℝ) - 0) = 50 from by norm_num,
    round1_eval (50 : ℝ) 500 (by norm_num)]
  norm_num

end ForecastService

/-- C4 counterexample: confidence-interval widths are not monotone in
the horizon. After 48 `add_reading` calls (the `c4values` history) for
sensor `cam-001`, `generate_forecast` over 1 hour at 10-minute
intervals returns 6 points whose interval at 20 minutes (twice the
10-minute horizon) is strictly narrower than the one at 10 minutes:
the 20-minute prediction is clamped at 1.0 and its lower bound at 0.0,
giving width 20.6 against 39.2. -/
theorem C4_width_not_monotone_counterexample :
    ∃ pts, ForecastService.generate_forecast ForecastService.c4state "cam-001" 1 10 0 0
        (fun _ => 0) = .ok pts ∧
      pts.length = 6 ∧
      (pts.getD 1 ⟨0, 0, 0, 0⟩).confidence_upper
          - (pts.getD 1 ⟨0, 0, 0, 0⟩).confidence_lower
        < (pts.getD 0 ⟨0, 0, 0, 0⟩).confidence_upper
          - (pts.getD 0 ⟨0, 0, 0, 0⟩).confidence_lower := by
  refine ⟨_, rfl, rfl, ?_⟩
  show (ForecastService.mk_forecast_point 0 20 (ForecastService.point_estimate
      (ForecastService.hw_model ForecastService.c4state "cam-001")
      ((ForecastService.c4state.level "cam-001").getD 15.0)
      ((ForecastService.c4state.trend "cam-001").getD 0.0)
      (ForecastService._compute_residual_std ForecastService.c4state "cam-001") 0 20)
      0).confidence_upper
    - (ForecastService.mk_forecast_point 0 20 (ForecastService.point_estimate
      (ForecastService.hw_model ForecastService.c4state "cam-001")
      ((ForecastService.c4state.level "cam-001").getD 15.0)
      ((ForecastService.c4state.trend "cam-001").getD 0.0)
      (ForecastService._compute_residual_std ForecastService.c4state "cam-001") 0 20)
      0).confidence_lower
    < (ForecastService.mk_forecast_point 0 10 (ForecastService.point_estimate
      (ForecastService.hw_model ForecastService.c4state "cam-001")
      ((ForecastService.c4state.level "cam-001").getD 15.0)
      ((ForecastService.c4state.trend "cam-001").getD 0.0)
      (ForecastService._compute_residual_std ForecastService.c4state "cam-001") 0 10)
      0).confidence_upper
    - (ForecastService.mk_forecast_point 0 10 (ForecastService.point_estimate
      (ForecastService.hw_model ForecastService.c4state "cam-001")
      ((ForecastService.c4state.level "cam-001").getD 15.0)
      ((ForecastService.c4state.trend "cam-001").getD 0.0)
      (ForecastService._compute_residual_std ForecastService.c4state "cam-001") 0 10)
      0).confidence_lower
  rw [ForecastService.c4_width_20, ForecastService.c4_width_10]
  norm_num

/-- C4 (amended): within one `generate_forecast` call with a positive
interval, for two returned points at horizons `(i+1)` and
`(j+1) = 2*(i+1)` intervals, if the lower bound of the longer-horizon
point is not clamped at zero then the interval width at the doubled
horizon is at least the width at the original horizon minus `1/5` (one
`round(x, 1)` step on each bound). The margin itself
(`se * 1.96 * sqrt(max(1, minutes/30))`) is monotone in the horizon;
only the clamps of the prediction at `1.0` and of the lower bound at
`0.0`, plus rounding, can shrink the reported interval, which is what
the counterexample exploits. -/
theorem C4_amended_width_quasi_monotone (svc : ForecastService.State)
    (sensor_id : String) (hours_ahead interval_minutes : ℤ) (now_ts current_hour : ℝ)
    (rng : ℕ → ℝ) (pts : List ForecastService.ForecastPoint)
    (hok : ForecastService.generate_forecast svc sensor_id hours_ahead interval_minutes
      now_ts current_hour rng = .ok pts)
    (hpos : 0 < interval_minutes) (i j : ℕ) (hi : i < pts.length) (hj : j < pts.length)
    (hij : j + 1 = 2 * (i + 1))
    (hnc : 0 ≤ round1 ((pts.getD j ⟨0, 0, 0, 0⟩).predicted_pm25
      - ForecastService.point_margin (ForecastService.forecast_se svc sensor_id)
        (((j : ℤ) + 1) * interval_minutes))) :
    (pts.getD i ⟨0, 0, 0, 0⟩).confidence_upper - (pts.getD i ⟨0, 0, 0, 0⟩).confidence_lower
      ≤ (pts.getD j ⟨0, 0, 0, 0⟩).confidence_upper
        - (pts.getD j ⟨0, 0, 0, 0⟩).confidence_lower + 1 / 5 := by
  unfold ForecastService.generate_forecast at hok
  split at hok
  · exact absurd hok (by simp)
  · simp only [Except.ok.injEq] at hok
    subst hok
    rw [List.length_map, List.length_range] at hi hj
    rw [List.getD_eq_getElem?_getD, List.getElem?_map, List.getElem?_range hj,
      Option.map_some', Option.getD_some] at hnc
    rw [List.getD_eq_getElem?_getD, List.getElem?_map, List.getElem?_range hi,
      Option.map_some', Option.getD_some,
      List.getD_eq_getElem?_getD, List.getElem?_map, List.getElem?_range hj,
      Option.map_some', Option.getD_some]
    rw [← ForecastService.point_estimate_se svc sensor_id
      ((svc.level sensor_id).getD 15.0) ((svc.trend sensor_id).getD 0.0)
      current_hour (((j : ℤ) + 1) * interval_minutes)] at hnc
    have hge := ForecastService.mk_width_ge now_ts (((j : ℤ) + 1) * interval_minutes)
      (ForecastService.point_estimate (ForecastService.hw_model svc sensor_id)
        ((svc.level sensor_id).getD 15.0) ((svc.trend sensor_id).getD 0.0)
        (ForecastService._compute_residual_std svc sensor_id) current_hour
        (((j : ℤ) + 1) * interval_minutes))
      (rng j) hnc
    have hle := ForecastService.mk_width_le now_ts (((i : ℤ) + 1) * interval_minutes)
      (ForecastService.point_estimate (ForecastService.hw_model svc sensor_id)
        ((svc.level sensor_id).getD 15.0) ((svc.trend sensor_id).getD 0.0)
        (ForecastService._compute_residual_std svc sensor_id) current_hour
        (((i : ℤ) + 1) * interval_minutes))
      (rng i)
    have hmono : ForecastService.point_margin
        (ForecastService.point_estimate (ForecastService.hw_model svc sensor_id)
          ((svc.level sensor_id).getD 15.0) ((svc.trend sensor_id).getD 0.0)
          (ForecastService._compute_residual_std svc sensor_id) current_hour
          (((i : ℤ) + 1) * interval_minutes)).2 (((i : ℤ) + 1) * interval_minutes)
        ≤ ForecastService.point_margin
          (ForecastService.point_estimate (ForecastService.hw_model svc sensor_id)
            ((svc.level sensor_id).getD 15.0) ((svc.trend sensor_id).getD 0.0)
            (ForecastService._compute_residual_std svc sensor_id) current_hour
            (((j : ℤ) + 1) * interval_minutes)).2 (((j : ℤ) + 1) * interval_minutes) := by
      rw [ForecastService.point_estimate_se, ForecastService.point_estimate_se]
      refine ForecastService.point_margin_mono
        (ForecastService.forecast_se_nonneg svc sensor_id) ?_
      have hij' : (j : ℤ) + 1 = 2 * ((i : ℤ) + 1) := by exact_mod_cast hij
      have h1 : (i : ℤ) + 1 ≤ (j : ℤ) + 1 := by omega
      exact mul_le_mul_of_nonneg_right h1 (le_of_lt hpos)
    linarith

/-- C4 amended witness: the constant 48-reading history (`constState`),
one hour ahead at 10-minute intervals, points 0 and 1. The standard
error is 0, no clamp binds, and both widths are 0. -/
theorem C4_amended_width_quasi_monotone_witness :
    (((ForecastService.generate_forecast ForecastService.constState "cam-001" 1 10 0 0
        (fun _ => 0)).toOption.getD []).getD 0 ⟨0, 0, 0, 0⟩).confidence_upper
      - (((ForecastService.generate_forecast ForecastService.constState "cam-001" 1 10 0 0
        (fun _ => 0)).toOption.getD []).getD 0 ⟨0, 0, 0, 0⟩).confidence_lower
      ≤ (((ForecastService.generate_forecast ForecastService.constState "cam-001" 1 10 0 0
        (fun _ => 0)).toOption.getD []).getD 1 ⟨0, 0, 0, 0⟩).confidence_upper
      - (((ForecastService.generate_forecast ForecastService.constState "cam-001" 1 10 0 0
        (fun _ => 0)).toOption.getD []).getD 1 ⟨0, 0, 0, 0⟩).confidence_lower + 1 / 5 :=
  C4_amended_width_quasi_monotone ForecastService.constState "cam-001" 1 10 0 0
    (fun _ => 0) _ rfl (by decide) 0 1
    (by rw [List.length_map, List.length_range]
        decide)
    (by rw [List.length_map, List.length_range]
        decide)
    (by decide)
    ForecastService.const_noclamp

/-! ### C10: the A* bookkeeping invariant and route endpoints -/

namespace RoutingService

theorem alookup_aupsert_self {β : Type} (l : List ((ℝ × ℝ) × β)) (k : ℝ × ℝ) (v : β) :
    alookup (aupsert l k v) k = some v := by
  simp [alookup, aupsert, List.find?_cons]

theorem find?_key_filter {β : Type} (l : List ((ℝ × ℝ) × β)) (k k' : ℝ × ℝ) (h : k' ≠ k) :
    ((l.filter fun e => ! decide (e.1 = k)).find? fun e => decide (e.1 = k'))
      = l.find? fun e => decide (e.1 = k') := by
  induction l with
  | nil => rfl
  | cons a t ih =>
    by_cases hak : a.1 = k
    · have hak' : ¬ a.1 = k' := fun hh => h (by rw [← hh, hak])
      simp [List.filter_cons, hak, List.find?_cons, hak', ih, h, Ne.symm h]
    · by_cases hak' : a.1 = k'
      · simp [List.filter_cons, hak, List.find?_cons, hak', h]
      · simp [List.filter_cons, hak, List.find?_cons, hak', ih, h]

theorem alookup_aupsert_ne {β : Type} (l : List ((ℝ × ℝ) × β)) (k k' : ℝ × ℝ) (v : β)
    (h : k' ≠ k) : alookup (aupsert l k v) k' = alookup l k' := by
  unfold alookup aupsert
  rw [List.find?_cons]
  have hd : (decide ((k, v).1 = k')) = false := by
    simp only [decide_eq_false_iff_not]
    exact fun hh => h hh.symm
  rw [hd]
  rw [find?_key_filter l k k' h]

theorem isSome_alookup_aupsert {β : Type} (l : List ((ℝ × ℝ) × β)) (k k' : ℝ × ℝ) (v : β)
    (h : (alookup l k').isSome) : (alookup (aupsert l k v) k').isSome := by
  by_cases hk : k' = k
  · subst hk
    rw [alookup_aupsert_self]
    rfl
  · rw [alookup_aupsert_ne l k k' v hk]
    exact h

theorem popMin_eq_none {l : List (ℝ × (ℝ × ℝ))} (h : popMin l = none) : l = [] := by
  cases l with
  | nil => rfl
  | cons x xs =>
    unfold popMin at h
    rcases hx : popMin xs with _ | p
    · rw [hx] at h
      exact absurd h (by simp)
    · rcases p with ⟨m, r⟩
      rw [hx] at h
      dsimp at h
      split at h <;> exact absurd h (by simp)

theorem popMin_mem {l : List (ℝ × (ℝ × ℝ))} {c : ℝ × (ℝ × ℝ)} {rest : List (ℝ × (ℝ × ℝ))}
    (h : popMin l = some (c, rest)) : c ∈ l ∧ ∀ e ∈ rest, e ∈ l := by
  induction l generalizing c rest with
  | nil => exact absurd h (by simp [popMin])
  | cons x xs ih =>
    unfold popMin at h
    rcases hx : popMin xs with _ | p
    · rw [hx] at h
      simp only [Option.some.injEq, Prod.mk.injEq] at h
      rcases h with ⟨rfl, rfl⟩
      exact ⟨List.mem_cons_self x xs, by simp⟩
    · rcases p with ⟨m, r⟩
      rw [hx] at h
      have hm := ih hx
      dsimp at h
      split at h <;> simp only [Option.some.injEq, Prod.mk.injEq] at h <;>
        rcases h with ⟨rfl, rfl⟩
      · exact ⟨List.mem_cons_of_mem x hm.1,
          fun e he => by
            rcases List.mem_cons.mp he with rfl | he'
            · exact List.mem_cons_self e xs
            · exact List.mem_cons_of_mem x (hm.2 e he')⟩
      · exact ⟨List.mem_cons_self _ _, fun e he => List.mem_cons_of_mem _ (hm.2 e he)⟩

theorem atan2_nonneg {y x : ℝ} (hy : 0 ≤ y) : 0 ≤ atan2 y x := by
  unfold atan2
  have hpi := Real.pi_pos
  have harc := Real.neg_pi_div_two_lt_arctan (y / x)
  split
  · rename_i hx
    have h0 : Real.arctan 0 ≤ Real.arctan (y / x) :=
      Real.arctan_strictMono.monotone (div_nonneg hy (le_of_lt hx))
    rw [Real.arctan_zero] at h0
    exact h0
  · repeat' split
    all_goals linarith

theorem haversine_nonneg (lat1 lng1 lat2 lng2 : ℝ) : 0 ≤ _haversine lat1 lng1 lat2 lng2 := by
  unfold _haversine
  simp only
  have h := atan2_nonneg (x := Real.sqrt (1 - (Real.sin (radians (lat2 - lat1) / 2) ^ (2 : ℕ)
    + Real.cos (radians lat1) * Real.cos (radians lat2)
      * Real.sin (radians (lng2 - lng1) / 2) ^ (2 : ℕ))))
    (Real.sqrt_nonneg (Real.sin (radians (lat2 - lat1) / 2) ^ (2 : ℕ)
      + Real.cos (radians lat1) * Real.cos (radians lat2)
        * Real.sin (radians (lng2 - lng1) / 2) ^ (2 : ℕ)))
  nlinarith

theorem interpolate_nonneg (cache : List SensorData)
    (hc : ∀ s ∈ cache, 0 ≤ s.pollution.pm25) (lat lng : ℝ) :
    0 ≤ _interpolate_pollution_at cache lat lng := by
  unfold _interpolate_pollution_at
  split
  · norm_num
  · have key : ∀ (l : List SensorData), (∀ s ∈ l, 0 ≤ s.pollution.pm25) →
        ∀ (acc : ℝ × ℝ), 0 ≤ acc.1 → 0 ≤ acc.2 →
        0 ≤ (l.foldl (fun (acc : ℝ × ℝ) s =>
          ((acc.1 + 1.0 / max (_haversine lat lng s.lat s.lng) 0.01 ^ (2 : ℕ)
              * s.pollution.pm25,
            acc.2 + 1.0 / max (_haversine lat lng s.lat s.lng) 0.01 ^ (2 : ℕ)) : ℝ × ℝ))
          acc).1 ∧
        0 ≤ (l.foldl (fun (acc : ℝ × ℝ) s =>
          ((acc.1 + 1.0 / max (_haversine lat lng s.lat s.lng) 0.01 ^ (2 : ℕ)
              * s.pollution.pm25,
            acc.2 + 1.0 / max (_haversine lat lng s.lat s.lng) 0.01 ^ (2 : ℕ)) : ℝ × ℝ))
          acc).2 := by
      intro l
      induction l with
      | nil => exact fun _ acc h1 h2 => ⟨h1, h2⟩
      | cons s t ih =>
        intro hl acc h1 h2
        rw [List.foldl_cons]
        have hw : (0 : ℝ) ≤ 1.0 / max (_haversine lat lng s.lat s.lng) 0.01 ^ (2 : ℕ) := by
          have hd : (0 : ℝ) < max (_haversine lat lng s.lat s.lng) 0.01 :=
            lt_of_lt_of_le (by norm_num) (le_max_right _ _)
          positivity
        exact ih (fun s' hs' => hl s' (List.mem_cons_of_mem s hs'))
          _ (by
            have := hl s (List.mem_cons_self s t)
            dsimp
            nlinarith)
          (by
            dsimp
            nlinarith)
    dsimp only
    split
    · norm_num
    · rename_i hne hz
      exact div_nonneg
        ((key cache hc (0.0, 0.0) (by norm_num) (by norm_num)).1)
        ((key cache hc (0.0, 0.0) (by norm_num) (by norm_num)).2)

theorem countP_lt_of_strict {α : Type} (l : List α) (p q : α → Bool)
    (himp : ∀ e ∈ l, p e = true → q e = true) (e0 : α) (he0 : e0 ∈ l)
    (hq : q e0 = true) (hp : p e0 = false) : l.countP p < l.countP q := by
  induction l with
  | nil => exact absurd he0 (List.not_mem_nil e0)
  | cons a t ih =>
    rw [List.countP_cons, List.countP_cons]
    have hmono : t.countP p ≤ t.countP q :=
      List.countP_mono_left fun e he hpe => himp e (List.mem_cons_of_mem a he) hpe
    rcases List.mem_cons.mp he0 with rfl | he0t
    · rw [hp, hq]
      norm_num
      omega
    · have hrec := ih (fun e he hpe => himp e (List.mem_cons_of_mem a he) hpe) he0t
      have hle : (if p a = true then 1 else 0) ≤ (if q a = true then 1 else 0) := by
        by_cases hpa : p a = true
        · rw [if_pos hpa, if_pos (himp a (List.mem_cons_self a t) hpa)]
        · rw [if_neg hpa]
          omega
      omega

theorem rank_parent_lt (gs : List ((ℝ × ℝ) × ℝ)) (τ : (ℝ × ℝ) → ℕ)
    (cf : List ((ℝ × ℝ) × Option (ℝ × ℝ))) (n c : ℝ × ℝ)
    (hlex : gval gs c < gval gs n ∨ (gval gs c = gval gs n ∧ τ c < τ n))
    (hc : (alookup cf c).isSome) :
    rank gs τ cf c < rank gs τ cf n := by
  unfold rank
  obtain ⟨e0, he0mem, he0key⟩ : ∃ e ∈ cf, e.1 = c := by
    unfold alookup at hc
    rcases hfind : cf.find? (fun e => decide (e.1 = c)) with _ | e
    · rw [hfind] at hc
      exact absurd hc (by simp)
    · have hm := List.mem_of_find?_eq_some hfind
      have hk := List.find?_some hfind
      exact ⟨e, hm, of_decide_eq_true hk⟩
  refine countP_lt_of_strict cf _ _ ?_ e0 he0mem ?_ ?_
  · intro e _ hpe
    rw [decide_eq_true_eq] at hpe
    rw [decide_eq_true_eq]
    rcases hpe with h1 | ⟨h1, h2⟩ <;> rcases hlex with h3 | ⟨h3, h4⟩
    · left; linarith
    · left; linarith
    · left; linarith
    · right
      exact ⟨by linarith, by omega⟩
  · rw [decide_eq_true_eq, he0key]
    exact hlex
  · rw [decide_eq_false_iff_not, he0key]
    rintro (h1 | ⟨h1, h2⟩)
    · exact absurd h1 (lt_irrefl _)
    · exact absurd h2 (lt_irrefl _)

theorem reconstruct_reaches_start (start : ℝ × ℝ)
    (cf : List ((ℝ × ℝ) × Option (ℝ × ℝ))) (gs : List ((ℝ × ℝ) × ℝ))
    (τ : (ℝ × ℝ) → ℕ) (inv : AInv start cf gs τ) :
    ∀ (fuel : ℕ) (n : ℝ × ℝ), (alookup cf n).isSome → rank gs τ cf n < fuel →
    reconstruct cf fuel (some n) ≠ [] ∧
    (reconstruct cf fuel (some n)).getLast? = some start := by
  intro fuel
  induction fuel with
  | zero => exact fun n _ h => absurd h (Nat.not_lt_zero _)
  | succ fuel ih =>
    intro n hn hrank
    rcases hcf : alookup cf n with _ | v
    · rw [hcf] at hn
      exact absurd hn (by simp)
    · rcases v with _ | c
      · have hstart := inv.none_start n none hcf rfl
        subst hstart
        unfold reconstruct
        rw [hcf]
        simp [reconstruct]
      · have hpar := inv.parent n c hcf
        have hcs : (alookup cf c).isSome := (inv.keys_eq c).mpr hpar.1
        have hlt := rank_parent_lt gs τ cf n c hpar.2 hcs
        have hih := ih c hcs (by omega)
        obtain ⟨hne, hlast⟩ := hih
        obtain ⟨hd, tl, hcons⟩ := List.exists_cons_of_ne_nil hne
        unfold reconstruct
        rw [hcf]
        simp only [Option.getD_some]
        rw [hcons]
        refine ⟨by simp, ?_⟩
        rw [List.getLast?_cons_cons, ← hcons, hlast]

noncomputable def tmax (τ : (ℝ × ℝ) → ℕ) (cf : List ((ℝ × ℝ) × Option (ℝ × ℝ))) : ℕ :=
  (cf.map fun e => τ e.1).foldr max 0

theorem le_foldr_max (l : List ℕ) (a : ℕ) (ha : a ∈ l) : a ≤ l.foldr max 0 := by
  induction l with
  | nil => exact absurd ha (List.not_mem_nil a)
  | cons x t ih =>
    rw [List.foldr_cons]
    rcases List.mem_cons.mp ha with rfl | hat
    · exact le_max_left _ _
    · exact le_trans (ih hat) (le_max_right _ _)

theorem key_mem_of_alookup_isSome {β : Type} {l : List ((ℝ × ℝ) × β)} {k : ℝ × ℝ}
    (hk : (alookup l k).isSome) : ∃ e ∈ l, e.1 = k := by
  unfold alookup at hk
  rcases hfind : l.find? (fun e => decide (e.1 = k)) with _ | e
  · rw [hfind] at hk
    exact absurd hk (by simp)
  · have hm := List.mem_of_find?_eq_some hfind
    have hp := List.find?_some hfind
    exact ⟨e, hm, of_decide_eq_true hp⟩

theorem le_tmax (τ : (ℝ × ℝ) → ℕ) (cf : List ((ℝ × ℝ) × Option (ℝ × ℝ)))
    {k : ℝ × ℝ} (hk : (alookup cf k).isSome) : τ k ≤ tmax τ cf := by
  obtain ⟨e, hemem, hekey⟩ := key_mem_of_alookup_isSome hk
  have h := le_foldr_max (cf.map fun e => τ e.1) (τ e.1)
    (List.mem_map_of_mem (fun e => τ e.1) hemem)
  rw [hekey] at h
  exact h

theorem relax_eq (cache : List SensorData) (goal : ℝ × ℝ) (pw : ℝ)
    (current : ℝ × ℝ) (os : List (ℝ × (ℝ × ℝ)))
    (cf : List ((ℝ × ℝ) × Option (ℝ × ℝ))) (gs : List ((ℝ × ℝ) × ℝ)) (nb : ℝ × ℝ) :
    (relax cache goal pw current (os, cf, gs) nb
        = (os ++ [((alookup gs current).getD 0
              + _haversine current.1 current.2 nb.1 nb.2
                * (1.0 + pw * (_interpolate_pollution_at cache nb.1 nb.2 / 50.0))
              + _haversine nb.1 nb.2 goal.1 goal.2, nb)],
           aupsert cf nb (some current),
           aupsert gs nb ((alookup gs current).getD 0
              + _haversine current.1 current.2 nb.1 nb.2
                * (1.0 + pw * (_interpolate_pollution_at cache nb.1 nb.2 / 50.0))))
      ∧ (alookup gs nb = none ∨ ∃ gn, alookup gs nb = some gn
          ∧ (alookup gs current).getD 0
              + _haversine current.1 current.2 nb.1 nb.2
                * (1.0 + pw * (_interpolate_pollution_at cache nb.1 nb.2 / 50.0)) < gn))
    ∨ (relax cache goal pw current (os, cf, gs) nb = (os, cf, gs)
      ∧ ∃ gn, alookup gs nb = some gn
          ∧ ¬ (alookup gs current).getD 0
              + _haversine current.1 current.2 nb.1 nb.2
                * (1.0 + pw * (_interpolate_pollution_at cache nb.1 nb.2 / 50.0)) < gn) := by
  rcases hnb : alookup gs nb with _ | gn
  · left
    refine ⟨?_, Or.inl rfl⟩
    unfold relax
    rw [hnb]
    dsimp only
    rw [if_pos rfl]
  · by_cases hlt : (alookup gs current).getD 0
        + _haversine current.1 current.2 nb.1 nb.2
          * (1.0 + pw * (_interpolate_pollution_at cache nb.1 nb.2 / 50.0)) < gn
    · left
      refine ⟨?_, Or.inr ⟨gn, rfl, hlt⟩⟩
      unfold relax
      rw [hnb]
      dsimp only
      rw [if_pos (decide_eq_true hlt)]
    · right
      refine ⟨?_, ⟨gn, rfl, hlt⟩⟩
      unfold relax
      rw [hnb]
      dsimp only
      rw [if_neg (by simpa using hlt)]

theorem relax_preserves (cache : List SensorData) (goal : ℝ × ℝ) (pw : ℝ)
    (hpw : 0 ≤ pw) (hcache : ∀ s ∈ cache, 0 ≤ s.pollution.pm25)
    (start current : ℝ × ℝ) (os : List (ℝ × (ℝ × ℝ)))
    (cf : List ((ℝ × ℝ) × Option (ℝ × ℝ))) (gs : List ((ℝ × ℝ) × ℝ))
    (τ : (ℝ × ℝ) → ℕ) (inv : AInv start cf gs τ)
    (hcur : (alookup gs current).isSome)
    (hos : ∀ e ∈ os, (alookup gs e.2).isSome) (nb : ℝ × ℝ) :
    ∃ τ', AInv start (relax cache goal pw current (os, cf, gs) nb).2.1
        (relax cache goal pw current (os, cf, gs) nb).2.2 τ' ∧
      (∀ e ∈ (relax cache goal pw current (os, cf, gs) nb).1,
        (alookup (relax cache goal pw current (os, cf, gs) nb).2.2 e.2).isSome) ∧
      (alookup (relax cache goal pw current (os, cf, gs) nb).2.2 current).isSome := by
  obtain ⟨gc, hgc⟩ := Option.isSome_iff_exists.mp hcur
  have hgc0 : 0 ≤ gc := inv.gs_nonneg current gc hgc
  have hE : 0 ≤ _haversine current.1 current.2 nb.1 nb.2
      * (1.0 + pw * (_interpolate_pollution_at cache nb.1 nb.2 / 50.0)) := by
    have h1 := haversine_nonneg current.1 current.2 nb.1 nb.2
    have h2 := interpolate_nonneg cache hcache nb.1 nb.2
    have h3 : 0 ≤ pw * (_interpolate_pollution_at cache nb.1 nb.2 / 50.0) :=
      mul_nonneg hpw (by linarith)
    exact mul_nonneg h1 (by linarith)
  rcases relax_eq cache goal pw current os cf gs nb with ⟨heq, hbranch⟩ | ⟨heq, -⟩
  case intro.inr.intro =>
    rw [heq]
    exact ⟨τ, inv, hos, hcur⟩
  rw [heq]
  dsimp only
  rw [hgc]
  simp only [Option.getD_some]
  rw [hgc] at hbranch
  simp only [Option.getD_some] at hbranch
  have hnbcur : nb ≠ current := by
    intro hh
    rw [hh] at hE
    rw [hh, hgc] at hbranch
    rcases hbranch with hnone | ⟨gn, hgn, hlt⟩
    · exact absurd hnone (by simp)
    · simp only [Option.some.injEq] at hgn
      rw [← hgn] at hlt
      linarith
  have hnbstart : nb ≠ start := by
    intro hh
    rw [hh] at hE
    rw [hh, inv.start_gs] at hbranch
    rcases hbranch with hnone | ⟨gn, hgn, hlt⟩
    · exact absurd hnone (by simp)
    · simp only [Option.some.injEq] at hgn
      rw [← hgn] at hlt
      linarith
  refine ⟨fun k => if k = nb then tmax τ cf + 1 else τ k, ?_, ?_, ?_⟩
  · constructor
    · intro k
      by_cases hk : k = nb
      · subst hk
        rw [alookup_aupsert_self, alookup_aupsert_self]
        simp
      · rw [alookup_aupsert_ne cf nb k _ hk, alookup_aupsert_ne gs nb k _ hk]
        exact inv.keys_eq k
    · rw [alookup_aupsert_ne cf nb start _ (fun hh => hnbstart hh.symm)]
      exact inv.start_cf
    · rw [alookup_aupsert_ne gs nb start _ (fun hh => hnbstart hh.symm)]
      exact inv.start_gs
    · intro k v hkv hvnone
      by_cases hk : k = nb
      · subst hk
        rw [alookup_aupsert_self] at hkv
        simp only [Option.some.injEq] at hkv
        rw [hvnone] at hkv
        exact absurd hkv (by simp)
      · rw [alookup_aupsert_ne cf nb k _ hk] at hkv
        exact inv.none_start k v hkv hvnone
    · intro k g hkg
      by_cases hk : k = nb
      · subst hk
        rw [alookup_aupsert_self] at hkg
        simp only [Option.some.injEq] at hkg
        rw [← hkg]
        linarith
      · rw [alookup_aupsert_ne gs nb k _ hk] at hkg
        exact inv.gs_nonneg k g hkg
    · intro n c hn
      by_cases hk : n = nb
      · subst hk
        rw [alookup_aupsert_self] at hn
        simp only [Option.some.injEq] at hn
        rw [← hn]
        refine ⟨?_, ?_⟩
        · rw [alookup_aupsert_ne gs n current _ (fun hh => hnbcur hh.symm), hgc]
          rfl
        · unfold gval
          rw [alookup_aupsert_self,
            alookup_aupsert_ne gs n current _ (fun hh => hnbcur hh.symm), hgc]
          simp only [Option.getD_some]
          rcases lt_or_eq_of_le (show gc ≤ gc
              + _haversine current.1 current.2 n.1 n.2
                * (1.0 + pw * (_interpolate_pollution_at cache n.1 n.2 / 50.0)) by
            have h1 := haversine_nonneg current.1 current.2 n.1 n.2
            have h2 := interpolate_nonneg cache hcache n.1 n.2
            have h3 : 0 ≤ pw * (_interpolate_pollution_at cache n.1 n.2 / 50.0) :=
              mul_nonneg hpw (by linarith)
            nlinarith) with hlt | heqq
          · exact Or.inl hlt
          · refine Or.inr ⟨heqq, ?_⟩
            rw [if_neg (show ¬ current = n from fun hh => hnbcur hh.symm), if_pos trivial]
            have hcurcf : (alookup cf current).isSome := (inv.keys_eq current).mpr hcur
            have := le_tmax τ cf hcurcf
            omega
      · rw [alookup_aupsert_ne cf nb n _ hk] at hn
        obtain ⟨hcs, hlex⟩ := inv.parent n c hn
        by_cases hc : c = nb
        · subst hc
          rcases hbranch with hnone | ⟨gn, hgn, hlt⟩
          · rw [hnone] at hcs
            exact absurd hcs (by simp)
          · refine ⟨?_, ?_⟩
            · rw [alookup_aupsert_self]
              rfl
            · left
              unfold gval at hlex ⊢
              rw [alookup_aupsert_self, alookup_aupsert_ne gs c n _ hk]
              simp only [Option.getD_some]
              rw [hgn] at hlex
              simp only [Option.getD_some] at hlex
              rcases hlex with h1 | ⟨h1, h2⟩
              · linarith
              · linarith
        · refine ⟨?_, ?_⟩
          · rw [alookup_aupsert_ne gs nb c _ hc]
            exact hcs
          · unfold gval at hlex ⊢
            rw [alookup_aupsert_ne gs nb c _ hc, alookup_aupsert_ne gs nb n _ hk]
            rw [if_neg hc, if_neg hk]
            exact hlex
  · intro e he
    rcases List.mem_append.mp he with hold | hnew
    · exact isSome_alookup_aupsert gs nb e.2 _ (hos e hold)
    · have he2 : e.2 = nb := by
        rcases List.mem_singleton.mp hnew with rfl
        rfl
      rw [he2, alookup_aupsert_self]
      rfl
  · rw [alookup_aupsert_ne gs nb current _ (fun hh => hnbcur hh.symm), hgc]
    rfl

theorem foldl_relax_preserves (cache : List SensorData) (goal : ℝ × ℝ) (pw : ℝ)
    (hpw : 0 ≤ pw) (hcache : ∀ s ∈ cache, 0 ≤ s.pollution.pm25)
    (start current : ℝ × ℝ) (neighbors : List (ℝ × ℝ)) :
    ∀ (st : List (ℝ × (ℝ × ℝ)) × List ((ℝ × ℝ) × Option (ℝ × ℝ)) × List ((ℝ × ℝ) × ℝ))
      (τ : (ℝ × ℝ) → ℕ),
    AInv start st.2.1 st.2.2 τ → (alookup st.2.2 current).isSome →
    (∀ e ∈ st.1, (alookup st.2.2 e.2).isSome) →
    ∃ τ', AInv start (neighbors.foldl (relax cache goal pw current) st).2.1
        (neighbors.foldl (relax cache goal pw current) st).2.2 τ' ∧
      (∀ e ∈ (neighbors.foldl (relax cache goal pw current) st).1,
        (alookup (neighbors.foldl (relax cache goal pw current) st).2.2 e.2).isSome) ∧
      (alookup (neighbors.foldl (relax cache goal pw current) st).2.2 current).isSome := by
  induction neighbors with
  | nil => exact fun st τ inv hcur hos => ⟨τ, inv, hos, hcur⟩
  | cons nb rest ih =>
    intro st τ inv hcur hos
    rcases st with ⟨os, cf, gs⟩
    rw [List.foldl_cons]
    obtain ⟨τ1, inv1, hos1, hcur1⟩ :=
      relax_preserves cache goal pw hpw hcache start current os cf gs τ inv hcur hos nb
    exact ih (relax cache goal pw current (os, cf, gs) nb) τ1 inv1 hcur1 hos1

theorem alookup_singleton {β : Type} (k0 k : ℝ × ℝ) (v : β) :
    alookup [(k0, v)] k = if k0 = k then some v else none := by
  unfold alookup
  by_cases h : k0 = k <;> simp [List.find?, h]

theorem a_star_loop_endpoints (cache : List SensorData) (start goal : ℝ × ℝ)
    (step pw : ℝ) (hpw : 0 ≤ pw) (hcache : ∀ s ∈ cache, 0 ≤ s.pollution.pm25) :
    ∀ (fuel : ℕ) (os : List (ℝ × (ℝ × ℝ))) (cf : List ((ℝ × ℝ) × Option (ℝ × ℝ)))
      (gs : List ((ℝ × ℝ) × ℝ)) (τ : (ℝ × ℝ) → ℕ),
    AInv start cf gs τ → (∀ e ∈ os, (alookup gs e.2).isSome) →
    a_star_loop cache start goal step pw fuel os cf gs ≠ [] ∧
    (a_star_loop cache start goal step pw fuel os cf gs).head? = some start ∧
    (a_star_loop cache start goal step pw fuel os cf gs).getLast? = some goal := by
  intro fuel
  induction fuel with
  | zero =>
    intro os cf gs τ inv hos
    unfold a_star_loop
    refine ⟨by simp, by simp, by simp⟩
  | succ fuel ih =>
    intro os cf gs τ inv hos
    rcases hpop : popMin os with _ | p
    · unfold a_star_loop
      rw [hpop]
      refine ⟨by simp, by simp, by simp⟩
    · rcases p with ⟨cur, rest⟩
      unfold a_star_loop
      rw [hpop]
      dsimp only
      split
      · have hcur_gs : (alookup gs cur.2).isSome := hos cur (popMin_mem hpop).1
        have hcur_cf : (alookup cf cur.2).isSome := (inv.keys_eq cur.2).mpr hcur_gs
        have hrank : rank gs τ cf cur.2 < cf.length + 1 := by
          have h := List.countP_le_length
            (p := fun e => decide (gval gs e.1 < gval gs cur.2
              ∨ (gval gs e.1 = gval gs cur.2 ∧ τ e.1 < τ cur.2))) (l := cf)
          unfold rank
          omega
        obtain ⟨hne, hlast⟩ := reconstruct_reaches_start start cf gs τ inv
          (cf.length + 1) cur.2 hcur_cf hrank
        obtain ⟨hd, tl, hcons⟩ := List.exists_cons_of_ne_nil hne
        refine ⟨by simp, ?_, ?_⟩
        · rw [List.head?_reverse, hcons, List.getLast?_cons_cons, ← hcons, hlast]
        · rw [List.getLast?_reverse]
          rfl
      · have hcur_gs : (alookup gs cur.2).isSome := hos cur (popMin_mem hpop).1
        have hrest : ∀ e ∈ rest, (alookup gs e.2).isSome :=
          fun e he => hos e ((popMin_mem hpop).2 e he)
        obtain ⟨τ1, inv1, hos1, -⟩ := foldl_relax_preserves cache goal pw hpw hcache start
          cur.2 (_get_neighbors cur.2.1 cur.2.2 step) (rest, cf, gs) τ inv hcur_gs hrest
        exact ih _ _ _ τ1 inv1 hos1

theorem a_star_endpoints (cache : List SensorData)
    (hcache : ∀ s ∈ cache, 0 ≤ s.pollution.pm25) (start goal : ℝ × ℝ)
    (step pw : ℝ) (hpw : 0 ≤ pw) :
    _a_star cache start goal step pw ≠ [] ∧
    (_a_star cache start goal step pw).head? = some start ∧
    (_a_star cache start goal step pw).getLast? = some goal := by
  unfold _a_star
  refine a_star_loop_endpoints cache start goal step pw hpw hcache _MAX_ITERATIONS
    [(0.0, start)] [(start, none)] [(start, 0.0)] (fun _ => 0) ?_ ?_
  · constructor
    · intro k
      rw [alookup_singleton, alookup_singleton]
      by_cases hk : start = k <;> simp [hk]
    · rw [alookup_singleton, if_pos rfl]
    · rw [alookup_singleton, if_pos rfl]
      norm_num
    · intro k v hkv _
      rw [alookup_singleton] at hkv
      by_cases hk : start = k
      · exact hk.symm
      · rw [if_neg hk] at hkv
        exact absurd hkv (by simp)
    · intro k g hkg
      rw [alookup_singleton] at hkg
      by_cases hk : start = k
      · rw [if_pos hk] at hkg
        simp only [Option.some.injEq] at hkg
        rw [← hkg]
        norm_num
      · rw [if_neg hk] at hkg
        exact absurd hkg (by simp)
    · intro n c hn
      rw [alookup_singleton] at hn
      by_cases hk : start = n
      · rw [if_pos hk] at hn
        exact absurd hn (by simp)
      · rw [if_neg hk] at hn
        exact absurd hn (by simp)
  · intro e he
    rcases List.mem_singleton.mp he with rfl
    rw [alookup_singleton, if_pos rfl]
    rfl

theorem round6_round6 {α : Type} [LinearOrderedField α] [FloorRing α] (x : α) :
    round6 (round6 x) = round6 x := by
  unfold round6
  rw [show (1000000 : α) * ((pyround (1000000 * x) : α) / 1000000)
      = ((pyround (1000000 * x) : ℤ) : α) by push_cast; ring, pyround_intCast]

theorem snap_fixed (v s : ℝ) : round6 (_snap_to_grid v s) = _snap_to_grid v s := by
  unfold _snap_to_grid
  exact round6_round6 _

end RoutingService

/-- C10: for every cached sensor set whose PM2.5 values are nonnegative
(spec section 3 requires `pm25 >= 0` of every PollutionReading) and
every origin/destination pair, the `path` of the GreenRoute returned by
`find_green_route` is non-empty, starts at the grid-snapped origin and
ends at the grid-snapped destination. This covers both exit routes of
the A* search: the goal-proximity return (the reconstructed parent
chain provably walks back to the start node: every `came_from` edge
strictly decreases a `(g_score, insertion-time)` measure, so the walk
terminates at `start`, the only node mapped to `None`) and the
iteration-cap / empty-frontier fallback `[start, goal]`. -/
theorem C10_green_route_endpoints (cache : List SensorData)
    (hcache : ∀ s ∈ cache, 0 ≤ s.pollution.pm25)
    (from_lat from_lng to_lat to_lng : ℝ) :
    (RoutingService.find_green_route cache from_lat from_lng to_lat to_lng).path ≠ [] ∧
    (RoutingService.find_green_route cache from_lat from_lng to_lat to_lng).path.head?
      = some [RoutingService._snap_to_grid from_lat RoutingService._GRID_STEP,
              RoutingService._snap_to_grid from_lng RoutingService._GRID_STEP] ∧
    (RoutingService.find_green_route cache from_lat from_lng to_lat to_lng).path.getLast?
      = some [RoutingService._snap_to_grid to_lat RoutingService._GRID_STEP,
              RoutingService._snap_to_grid to_lng RoutingService._GRID_STEP] := by
  obtain ⟨hne, hhead, hlast⟩ := RoutingService.a_star_endpoints cache hcache
    (RoutingService._snap_to_grid from_lat RoutingService._GRID_STEP,
     RoutingService._snap_to_grid from_lng RoutingService._GRID_STEP)
    (RoutingService._snap_to_grid to_lat RoutingService._GRID_STEP,
     RoutingService._snap_to_grid to_lng RoutingService._GRID_STEP)
    RoutingService._GRID_STEP 2.0 (by norm_num)
  unfold RoutingService.find_green_route
  dsimp only
  refine ⟨?_, ?_, ?_⟩
  · intro h
    rw [List.map_eq_nil] at h
    exact hne h
  · rw [List.head?_map, hhead]
    simp only [Option.map_some']
    rw [RoutingService.snap_fixed, RoutingService.snap_fixed]
  · rw [List.getLast?_map, hlast]
    simp only [Option.map_some']
    rw [RoutingService.snap_fixed, RoutingService.snap_fixed]

/-- C10 witness: the empty sensor cache and origin = destination = the
zero coordinates (the nonnegativity hypothesis is vacuous). -/
theorem C10_green_route_endpoints_witness :
    (RoutingService.find_green_route [] 0 0 0 0).path ≠ [] ∧
    (RoutingService.find_green_route [] 0 0 0 0).path.head?
      = some [RoutingService._snap_to_grid 0 RoutingService._GRID_STEP,
              RoutingService._snap_to_grid 0 RoutingService._GRID_STEP] ∧
    (RoutingService.find_green_route [] 0 0 0 0).path.getLast?
      = some [RoutingService._snap_to_grid 0 RoutingService._GRID_STEP,
              RoutingService._snap_to_grid 0 RoutingService._GRID_STEP] :=
  C10_green_route_endpoints [] (by simp) 0 0 0 0


end EcoLens
